import Mathlib

/-!
# The Subscribable mixin (`src/mixins/subscribable.js`)

A shallow embedding of the publish-subscribe mixin: documents are trees of
DOM nodes, JavaScript values are a small sum type, every function that can
throw returns `Except Fault`, and every function that talks to the outside
(the transport, the caller's callbacks, the registered handlers) returns the
list of the effects it performs, in order.
-/

namespace Subscribable

/-! ## JavaScript values -/

/-- What ends a run early. `typeError`: a thrown JavaScript exception
(property access on `null`/`undefined`, or a call of something that is not
a function). `callerCode`: the run reaches a function of the caller that
decides what the mixin does next, namely a function stored under the name
`hasOwnProperty` of an object the mixin tests, or a function handed to
`__defineGetter__`/`__defineSetter__` of the shared table
`optionTransforms`, which redefines that table; the embedding describes the
run up to that point only. -/
inductive Fault where
  | typeError
  | callerCode
  deriving DecidableEq

deriving instance DecidableEq for Except

/-- A `Date` value, seen through its UTC getters: `getUTCFullYear`,
`getUTCMonth` (0 to 11), `getUTCDate` (1 to 31), `getUTCHours`,
`getUTCMinutes`, `getUTCSeconds` and `getUTCMilliseconds`. -/
structure UTCDate where
  fullYear : Int
  month : Nat
  date : Nat
  hours : Nat
  minutes : Nat
  seconds : Nat
  milliseconds : Nat
  month_lt : month < 12
  date_pos : 0 < date
  date_le : date ≤ 31
  hours_lt : hours < 24
  minutes_lt : minutes < 60
  seconds_lt : seconds < 60
  milliseconds_lt : milliseconds < 1000
  deriving DecidableEq

/-- The values a property of an object literal can hold: primitives, dates,
functions (known by an identifier) and other objects (known by a label). -/
inductive Prim where
  | undefined
  | null
  | bool (b : Bool)
  | num (n : Int)
  | str (s : String)
  | date (d : UTCDate)
  | fn (id : Nat)
  | object (label : String)
  deriving DecidableEq

/-- An argument of one of the public operations: a primitive, or an object
with its own properties (in insertion order) and the properties it inherits
from its prototype, all of them enumerable. The first binding of a name in
a list is the property; a later binding of the same name is ignored. -/
inductive JSValue where
  | prim (p : Prim)
  | obj (own : List (String × Prim)) (inherited : List (String × Prim))
  deriving DecidableEq

/-- JavaScript truthiness of a property value. -/
def Prim.truthy : Prim → Bool
  | .undefined => false
  | .null => false
  | .bool b => b
  | .num n => n != 0
  | .str s => s != ""
  | .date _ => true
  | .fn _ => true
  | .object _ => true

/-- JavaScript truthiness. -/
def JSValue.truthy : JSValue → Bool
  | .prim p => p.truthy
  | .obj _ _ => true

/-- Truthiness of a string or `null`: `null` and `''` are falsy. -/
def truthyStr : Option String → Bool
  | none => false
  | some s => s != ""

/-- The expression `a || d` for a string-or-null `a` and a string `d`. -/
def orDefault (a : Option String) (d : String) : String :=
  match a with
  | none => d
  | some s => if s = "" then d else s

/-- String concatenation `'...' + a` with a string-or-null `a`. -/
def strOrNull : Option String → String
  | none => "null"
  | some s => s

/-- The string a value contributes to `'...' + v`; plain objects print as
`[object Object]`, and a fixed text stands for the implementation-defined
print of a function or a date. -/
def JSValue.toStr : JSValue → String
  | .prim .undefined => "undefined"
  | .prim .null => "null"
  | .prim (.bool b) => if b then "true" else "false"
  | .prim (.num n) => toString n
  | .prim (.str s) => s
  | .prim (.date _) => "[object Date]"
  | .prim (.fn _) => "function"
  | .prim (.object _) => "[object Object]"
  | .obj _ _ => "[object Object]"

/-- Property read `v.name`: throws on `undefined` and `null`; on an object the
own property wins over the inherited one; the primitives have none of the
properties the mixin reads. -/
def JSValue.getProp (v : JSValue) (name : String) : Except Fault Prim :=
  match v with
  | .prim .undefined => .error .typeError
  | .prim .null => .error .typeError
  | .prim _ => .ok .undefined
  | .obj own inherited =>
    match own.lookup name with
    | some p => .ok p
    | none => .ok ((inherited.lookup name).getD .undefined)

/-- The number a string of decimal digits denotes. -/
def decimalValue (s : String) : Nat :=
  s.data.foldl (fun acc c => 10 * acc + (c.toNat - 48)) 0

/-- The index a property name denotes when the name is an array index: the
canonical decimal text of an integer below `2^32 - 1`. -/
def arrayIndex? (name : String) : Option Nat :=
  let n := decimalValue name
  if toString n = name ∧ n < 4294967295 then some n else none

/-- The properties a list of bindings defines: the first binding of each
name, the names in `seen` left out. -/
def firstBindings (seen : List String) : List (String × Prim) → List (String × Prim)
  | [] => []
  | (o, v) :: rest =>
    if o ∈ seen then firstBindings seen rest else (o, v) :: firstBindings (o :: seen) rest

/-- The order of two properties named by array indices. -/
def indexLE (a b : String × Prim) : Prop :=
  (arrayIndex? a.1).getD 0 ≤ (arrayIndex? b.1).getD 0

instance : DecidableRel indexLE := fun a b =>
  inferInstanceAs (Decidable ((arrayIndex? a.1).getD 0 ≤ (arrayIndex? b.1).getD 0))

/-- The order in which `for (o in v)` visits the own properties of an
object: the names that are array indices first, in ascending numeric order,
then the other names in insertion order. -/
def enumerationOrder (own : List (String × Prim)) : List (String × Prim) :=
  ((firstBindings [] own).filter (fun e => (arrayIndex? e.1).isSome)).insertionSort indexLE ++
    (firstBindings [] own).filter (fun e => (arrayIndex? e.1).isNone)

/-- The names `for (o in v)` visits, each with the value `v[o]`: the own
properties of an object, then the inherited ones that no own property
hides; the indexed characters of a string; nothing for the other
primitives. -/
def JSValue.enumerate : JSValue → List (String × Prim)
  | .obj own inherited =>
    enumerationOrder own ++
      (enumerationOrder inherited).filter (fun e => (own.lookup e.1).isNone)
  | .prim (.str s) =>
    s.toList.enum.map (fun ic => (toString ic.1, Prim.str (String.singleton ic.2)))
  | .prim _ => []

/-- The value the lookup `v.hasOwnProperty` finds on an object or on its
prototype, `none` when it reaches the built-in of `Object.prototype`. -/
def JSValue.shadowedHasOwnProperty : JSValue → Option Prim
  | .obj own inherited =>
    match own.lookup "hasOwnProperty" with
    | some p => some p
    | none => inherited.lookup "hasOwnProperty"
  | .prim _ => none

/-- The call `v.hasOwnProperty(name)`. On an object that stores something
under the name `hasOwnProperty`, or inherits it, that value is called
instead of the built-in: a value that is not a function throws, a function
is code of the caller. A string has its indices and `length` as own
properties; the other primitives have none of the names the mixin asks
about. -/
def JSValue.hasOwnProperty (v : JSValue) (name : String) : Except Fault Bool :=
  match v with
  | .prim .undefined => .error .typeError
  | .prim .null => .error .typeError
  | .prim (.str s) =>
    match arrayIndex? name with
    | some i => .ok (decide (i < s.length))
    | none => .ok (decide (name = "length"))
  | .prim _ => .ok false
  | .obj own inherited =>
    match (JSValue.obj own inherited).shadowedHasOwnProperty with
    | some (.fn _) => .error .callerCode
    | some _ => .error .typeError
    | none => .ok ((own.lookup name).isSome)

/-- The expression `callbacks || {}`. -/
def JSValue.orEmpty (v : JSValue) : JSValue :=
  if v.truthy then v else .obj [] []

/-! ## Documents -/

/-- A DOM node: an element, or character data (a text node, which has no
tag name, no attributes and no children). -/
inductive Node where
  | element (tagName : String) (attributes : List (String × String)) (childNodes : List Node)
  | text (data : String)

mutual
/-- Decidable equality of nodes. -/
def Node.decEq : (a b : Node) → Decidable (a = b)
  | .element t a cs, .element t2 a2 cs2 =>
    if h1 : t = t2 then
      if h2 : a = a2 then
        match Node.decEqList cs cs2 with
        | isTrue h3 => isTrue (by rw [h1, h2, h3])
        | isFalse h3 => isFalse (fun h => h3 (by injection h))
      else isFalse (fun h => h2 (by injection h))
    else isFalse (fun h => h1 (by injection h))
  | .text d, .text d2 =>
    if h : d = d2 then isTrue (by rw [h]) else isFalse (fun h2 => h (by injection h2))
  | .element _ _ _, .text _ => isFalse (fun h => by cases h)
  | .text _, .element _ _ _ => isFalse (fun h => by cases h)
/-- Decidable equality of lists of nodes. -/
def Node.decEqList : (a b : List Node) → Decidable (a = b)
  | [], [] => isTrue rfl
  | [], _ :: _ => isFalse (fun h => by cases h)
  | _ :: _, [] => isFalse (fun h => by cases h)
  | c :: cs, d :: ds =>
    match Node.decEq c d with
    | isTrue h1 =>
      match Node.decEqList cs ds with
      | isTrue h2 => isTrue (by rw [h1, h2])
      | isFalse h2 => isFalse (fun h => h2 (by injection h))
    | isFalse h1 => isFalse (fun h => h1 (by injection h))
end

instance : DecidableEq Node := Node.decEq

/-- An element node: the root of a document (`packet.getNode()`) and every
member of a `getElementsByTagName` result is one. -/
structure Element where
  tagName : String
  attributes : List (String × String)
  childNodes : List Node
  deriving DecidableEq

/-- Property `tagName`: `undefined` on a node that is not an element. -/
def Node.tagName : Node → Option String
  | .element t _ _ => some t
  | .text _ => none

/-- Property `firstChild` of a node (`null` when there is none). -/
def Node.firstChild : Node → Option Node
  | .element _ _ cs => cs.head?
  | .text _ => none

/-- Property `firstChild` of an element. -/
def Element.firstChild (e : Element) : Option Node :=
  e.childNodes.head?

/-- The call `getAttribute(name)` on an element: `null` when absent. -/
def Element.getAttribute (e : Element) (name : String) : Option String :=
  e.attributes.lookup name

/-- The call `n.getAttribute(name)` on a node: a node that is not an element
has no such method, so the call throws. -/
def Node.getAttribute (n : Node) (name : String) : Except Fault (Option String) :=
  match n with
  | .element _ attrs _ => .ok (attrs.lookup name)
  | .text _ => .error .typeError

/-- The call `x.getAttribute(name)` where `x` may be `null`/`undefined`. -/
def getAttributeOf (x : Option Node) (name : String) : Except Fault (Option String) :=
  match x with
  | none => .error .typeError
  | some n => n.getAttribute name

mutual
/-- The descendants of a node, in document order. -/
def Node.descendants : Node → List Node
  | .element _ _ cs => Node.descendantsOfList cs
  | .text _ => []
/-- The nodes of a list with their descendants, in document order. -/
def Node.descendantsOfList : List Node → List Node
  | [] => []
  | c :: cs => c :: (c.descendants ++ Node.descendantsOfList cs)
end

/-- The node as an element, when it is one with the given tag name. -/
def Node.asTagged (name : String) : Node → Option Element
  | .element t a cs => if t = name then some ⟨t, a, cs⟩ else none
  | .text _ => none

/-- The call `e.getElementsByTagName(name)`: the descendant elements with
that tag name, in document order. -/
def Element.getElementsByTagName (e : Element) (name : String) : List Element :=
  (Node.descendantsOfList e.childNodes).filterMap (Node.asTagged name)

mutual
/-- Property `textContent`: the character data below a node, concatenated. -/
def Node.textContent : Node → String
  | .element _ _ cs => Node.textContentOfList cs
  | .text d => d
/-- The text content of a list of nodes. -/
def Node.textContentOfList : List Node → String
  | [] => ""
  | c :: cs => c.textContent ++ Node.textContentOfList cs
end

/-- Modelled from the spec: the packet adapter (`OX.PacketAdapter`) is not
among the sources; a response or push document is what the mixin reads of
it, its type (`getType()`, `error` for a protocol-level error response) and
its document element (`getNode()`). -/
structure Packet where
  type : String
  node : Element
  deriving DecidableEq

/-! ## URIs, items, subscriptions -/

/-- Modelled from the spec: `OX.URI` is not among the sources; a URI is a
value combining the service address (`path`) with the query that names the
node and the item, built fresh by `fromObject` and `extend` and never
mutated in place. -/
structure URI where
  path : Option String
  query : Option String
  deriving DecidableEq

/-- The call `OX.URI.fromObject({path: path, query: query})`. -/
def URI.fromObject (path : Option String) (query : String) : URI :=
  ⟨path, some query⟩

/-- The call `uri.extend({query: query})`: a new URI, the query replaced. -/
def URI.extend (uri : URI) (query : String) : URI :=
  { uri with query := some query }

/-- Modelled from the spec: `OX.URI.parse` is not among the sources; of the
replacement address encoded in the detail of a redirect/gone error the
mixin reads `uri.path` and `uri.queryParam('node')`. -/
structure ParsedURI where
  path : Option String
  node : Option String
  deriving DecidableEq

/-- An item: what `itemFromElement` returns for the entry, with the two
properties `convertItems` sets on it. -/
structure Item (α : Type) where
  payload : α
  publishTime : Option String
  uri : URI
  deriving DecidableEq

/-- An entry of the list `getSubscriptions` hands to `onSuccess`. -/
structure Subscription where
  node : String
  jid : Option String
  subscription : Option String
  subid : Option String
  deriving DecidableEq

/-! ## Requests and effects -/

/-- The `options` element built by `objectToOptionsForm`: its attributes
(set by `configureNode` only) and the fields of its data form, in order. -/
structure OptionsForm where
  attributes : List (String × Prim)
  fields : List (String × Prim)
  deriving DecidableEq

/-- The child of the `pubsub` element of a request. -/
inductive Body where
  | subscribe (node : String) (jid : String) (options : Option OptionsForm)
  | unsubscribe (node : String) (jid : String)
  | items (node : String)
  | subscriptions (node : Option JSValue)
  | options (form : OptionsForm)
  deriving DecidableEq

/-- Modelled from the spec: the element builders (`OX.XML`) are not among
the sources; a request is an envelope with destination address and
operation kind (`get` or `set`) wrapping a pubsub body. -/
structure Request where
  recipient : Option String
  type : String
  body : Body
  deriving DecidableEq

/-- The argument array bound to a request by `connection.send`: the
arguments its response handler receives after the packet. -/
inductive Context where
  | subscribe (node : String) (options : JSValue) (callbacks : JSValue)
      (origNode : String) (redirectCount : Nat)
  | unsubscribe (node : String) (callbacks : JSValue)
  | getItems (callbacks : JSValue)
  | getSubscriptions (node : JSValue) (callbacks : JSValue) (origNode : JSValue)
      (redirectCount : Nat) (strict : JSValue)
  | configureNode (subscription : JSValue) (options : JSValue) (callbacks : JSValue)
  deriving DecidableEq

/-- An argument passed to a callback or a handler. -/
inductive Arg (α : Type) where
  | uri (u : URI)
  | packet (p : Packet)
  | element (e : Element)
  | item (i : Item α)
  | items (l : List (Item α))
  | subscriptions (l : List Subscription)
  deriving DecidableEq

/-- What the mixin does to the outside: a request handed to
`connection.send` with its bound context, or a call of the function `fn`
found under the property `name` of a callback set or of the handler table. -/
inductive Effect (α : Type) where
  | send (request : Request) (context : Context)
  | call (name : String) (fn : Nat) (args : List (Arg α))
  deriving DecidableEq

/-- The run of a function: the effects performed, in order, and what ended
it early, if anything did. -/
structure Outcome (α : Type) where
  effects : List (Effect α)
  fault : Option Fault
  deriving DecidableEq

/-- A run that does nothing. -/
def Outcome.done {α : Type} : Outcome α := ⟨[], none⟩

/-- A run that performs the given effects and returns. -/
def Outcome.emit {α : Type} (es : List (Effect α)) : Outcome α := ⟨es, none⟩

/-- A run that throws at once. -/
def Outcome.throw {α : Type} (f : Fault) : Outcome α := ⟨[], some f⟩

/-- Sequencing: the second run happens only if the first did not throw. -/
def Outcome.andThen {α : Type} (a b : Outcome α) : Outcome α :=
  match a.fault with
  | some _ => a
  | none => ⟨a.effects ++ b.effects, b.fault⟩

/-- The handler table `_subscriptionHandlers`: per event name, the function
registered (`none` when the slot holds no function). -/
structure Registry where
  onPending : Option Nat
  onSubscribed : Option Nat
  onUnsubscribed : Option Nat
  onPublish : Option Nat
  onRetract : Option Nat
  deriving DecidableEq

/-- The object the mixin is mixed into (`this`): the pubsub service URI, the
connection's own JID (`connection.getJID()`), the URI parser `OX.URI.parse`,
the item decoder `itemFromElement` it supplies, and its handler table. -/
structure Entity (α : Type) where
  pubSubURI : URI
  jid : String
  parse : String → ParsedURI
  itemFromElement : Node → α
  handlers : Registry

/-- The statement `if (callbacks.name) { callbacks.name(args); }`. -/
def callIfPresent {α : Type} (callbacks : JSValue) (name : String)
    (args : List (Arg α)) : Outcome α :=
  match callbacks.getProp name with
  | .error f => .throw f
  | .ok p =>
    if p.truthy then
      match p with
      | .fn id => .emit [.call name id args]
      | _ => .throw .typeError
    else .done

/-! ## The option codec -/

/-- The loop of `zeroPad`: `for (i = n; i > 0; i--) rc = '0' + rc`. -/
def zeroPadLoop : Nat → String → String
  | 0, rc => rc
  | i + 1, rc => zeroPadLoop i ("0" ++ rc)

/-- The function `zeroPad(spaces, value)`: `(value || '').toString()`,
left-padded with zeros up to `spaces` characters. -/
def zeroPad (spaces : Nat) (value : Int) : String :=
  let rc := if value = 0 then "" else toString value
  zeroPadLoop (spaces - rc.length) rc

/-- The `toString` direction of `optionTransforms.expire` on a date. -/
def expireToString (value : UTCDate) : String :=
  let d := zeroPad 2 value.date
  let m := zeroPad 2 (value.month + 1)
  let y := zeroPad 4 value.fullYear
  let hh := zeroPad 2 value.hours
  let mm := zeroPad 2 value.minutes
  let ss := zeroPad 2 value.seconds
  let ms := zeroPad 4 value.milliseconds
  y ++ "-" ++ m ++ "-" ++ d ++ "T" ++ hh ++ ":" ++ mm ++ ":" ++ ss ++ "." ++ ms ++ "000Z"

/-- The function `optionTransforms.expire(direction, value)`; a `value` that
is not a date has no `getUTCDate`, so the `toString` direction throws on it. -/
def expire (direction : String) (value : Prim) : Except Fault Prim :=
  if direction = "fromString" then .ok (.str "oops")
  else if direction = "toString" then
    match value with
    | .date v => .ok (.str (expireToString v))
    | _ => .error .typeError
  else .ok .undefined

/-- The value of `optionTransforms[o]('toString', value)` for a name `o`
that the table `optionTransforms`, an object literal, inherits from
`Object.prototype` (the members the language standard defines, those of its
annex on web browsers included), `none` for any other name: `constructor`
wraps the string `'toString'` in an object, `toString` and `toLocaleString`
print the table, `valueOf` returns the table, the three tests answer
`false` for the string `'toString'`, `__lookupGetter__` and
`__lookupSetter__` find no accessor named `toString`, `__defineGetter__`
and `__defineSetter__` throw unless `value` is a function, which they
install as an accessor of the table, and `__proto__` is the prototype
object, not a function, so the call throws. -/
def inheritedTransform (o : String) (value : Prim) : Option (Except Fault Prim) :=
  if o = "constructor" then some (.ok (.object "String"))
  else if o = "toString" ∨ o = "toLocaleString" then some (.ok (.str "[object Object]"))
  else if o = "valueOf" then some (.ok (.object "optionTransforms"))
  else if o = "hasOwnProperty" ∨ o = "isPrototypeOf" ∨ o = "propertyIsEnumerable" then
    some (.ok (.bool false))
  else if o = "__lookupGetter__" ∨ o = "__lookupSetter__" then some (.ok .undefined)
  else if o = "__defineGetter__" ∨ o = "__defineSetter__" then
    match value with
    | .fn _ => some (.error .callerCode)
    | _ => some (.error .typeError)
  else if o = "__proto__" then some (.error .typeError)
  else none

/-- The value of `optionTransforms[o]('toString', value)` when
`optionTransforms[o]` is truthy, `none` when it is not: the table's own
`expire`, or a member it inherits. -/
def optionTransforms (o : String) (value : Prim) : Option (Except Fault Prim) :=
  if o = "expire" then some (expire "toString" value)
  else inheritedTransform o value

/-- The loop `for (var o in options) if (options.hasOwnProperty(o)) ...` of
`objectToOptionsForm`, over the names the loop visits, each with the value
`options[o]`. -/
def optionFields (options : JSValue) :
    List (String × Prim) → Except Fault (List (String × Prim))
  | [] => .ok []
  | (o, v) :: rest =>
    match options.hasOwnProperty o with
    | .error f => .error f
    | .ok false => optionFields options rest
    | .ok true =>
      match (match optionTransforms o v with
             | some r => r
             | none => .ok v) with
      | .error f => .error f
      | .ok trVal =>
        match optionFields options rest with
        | .error f => .error f
        | .ok fields => .ok (("pubsub#" ++ o, trVal) :: fields)

/-- The function `objectToOptionsForm(options)`. -/
def objectToOptionsForm (options : JSValue) : Except Fault OptionsForm :=
  match optionFields options options.enumerate with
  | .error f => .error f
  | .ok fields =>
    .ok ⟨[], ("FORM_TYPE", .str "http://jabber.org/protocol/pubsub#subscribe_options") :: fields⟩

/-! ## Classifying and decoding documents -/

/-- The function `packetType(element)`; `element` is `null` when the caller
passes the `firstChild` of an element without children. -/
def packetType (element : Option Node) : Except Fault (Option String) :=
  match element with
  | none => .error .typeError
  | some e =>
    if e.tagName = some "subscription" then e.getAttribute "subscription"
    else if e.tagName = some "items" then
      match e.firstChild with
      | none => .error .typeError
      | some c => if c.tagName = some "retract" then .ok (some "retract") else .ok (some "publish")
    else .ok none

/-- The inner function `itemURI(itemID, node)` of `convertItems`; it reads
`document.firstChild.firstChild` before building the URI. -/
def itemURI (document : Element) (itemID : Option String) (node : String) : Except Fault URI :=
  match document.firstChild with
  | none => .error .typeError
  | some _ =>
    .ok (URI.fromObject (document.getAttribute "from")
      (";node=" ++ node ++ ";item=" ++ strOrNull itemID))

/-- The inner function `getPublishTime(element)` of `convertItems`. -/
def getPublishTime (element : Node) : Except Fault (Option String) :=
  match element.firstChild with
  | none => .ok none
  | some firstChild => firstChild.getAttribute "publish-time"

/-- The inner loop of `convertItems`, over the children of one `items`
element; `rc` is the array built so far. -/
def convertChildren {α : Type} (self : Entity α) (document : Element) (node : String) :
    List Node → List (Item α) → Except Fault (List (Item α))
  | [], rc => .ok rc
  | child :: rest, rc =>
    if child.tagName = some "item" then
      match getPublishTime child with
      | .error f => .error f
      | .ok publishTime =>
        match child.getAttribute "id" with
        | .error f => .error f
        | .ok id =>
          match itemURI document id node with
          | .error f => .error f
          | .ok uri =>
            convertChildren self document node rest
              (rc ++ [⟨self.itemFromElement child, publishTime, uri⟩])
    else convertChildren self document node rest rc

/-- The outer loop of `convertItems`, over the `items` elements found. -/
def convertContainers {α : Type} (self : Entity α) (document : Element) :
    List Element → List (Item α) → Except Fault (List (Item α))
  | [], rc => .ok rc
  | items :: rest, rc =>
    match convertChildren self document (orDefault (items.getAttribute "node") "/")
        items.childNodes rc with
    | .error f => .error f
    | .ok rc2 => convertContainers self document rest rc2

/-- The function `convertItems(document)`. -/
def convertItems {α : Type} (self : Entity α) (document : Element) :
    Except Fault (List (Item α)) :=
  convertContainers self document (document.getElementsByTagName "items") []

/-- The inner function `subscriptionURI()` of `fireEvent`. -/
def subscriptionURI (packet : Packet) : Except Fault URI :=
  let elt := packet.node
  match elt.firstChild with
  | none => .error .typeError
  | some child =>
    match getAttributeOf child.firstChild "node" with
    | .error f => .error f
    | .ok node => .ok (URI.fromObject (elt.getAttribute "from") (";node=" ++ orDefault node "/"))

/-- The inner function `retractURI()` of `fireEvent`. -/
def retractURI (packet : Packet) : Except Fault URI :=
  let elt := packet.node
  match (elt.getElementsByTagName "items").head? with
  | none => .error .typeError
  | some items =>
    match getAttributeOf items.firstChild "id" with
    | .error f => .error f
    | .ok itemID =>
      .ok (URI.fromObject (elt.getAttribute "from")
        (";node=" ++ orDefault (items.getAttribute "node") "/" ++ ";item=" ++ strOrNull itemID))

/-- One of the three subscription cases of `fireEvent`: if the slot holds a
handler, build the subscription URI and call it. -/
def fireSubscription {α : Type} (slot : Option Nat) (name : String) (packet : Packet) : Outcome α :=
  match slot with
  | none => .done
  | some fn =>
    match subscriptionURI packet with
    | .error f => .throw f
    | .ok uri => .emit [.call name fn [.uri uri]]

/-- The function `fireEvent(type, packet)`. -/
def fireEvent {α : Type} (self : Entity α) (type : Option String) (packet : Packet) : Outcome α :=
  if type = some "subscribed" then fireSubscription self.handlers.onSubscribed "onSubscribed" packet
  else if type = some "pending" then fireSubscription self.handlers.onPending "onPending" packet
  else if type = some "none" then fireSubscription self.handlers.onUnsubscribed "onUnsubscribed" packet
  else if type = some "publish" then
    match self.handlers.onPublish with
    | none => .done
    | some fn =>
      match convertItems self packet.node with
      | .error f => .throw f
      | .ok items => .emit (items.map (fun i => .call "onPublish" fn [.item i]))
  else if type = some "retract" then
    match self.handlers.onRetract with
    | none => .done
    | some fn =>
      match retractURI packet with
      | .error f => .throw f
      | .ok uri => .emit [.call "onRetract" fn [.uri uri]]
  else .done

/-- The function `jidHandler(packet)`, the permanent listener. -/
def jidHandler {α : Type} (self : Entity α) (packet : Packet) : Outcome α :=
  match (packet.node.getElementsByTagName "event").head? with
  | none => .done
  | some event =>
    match packetType event.firstChild with
    | .error f => .throw f
    | .ok type => fireEvent self type packet

/-! ## Requests -/

/-- The statement `if (options) { opts = objectToOptionsForm(options); ... }`
of `doSubscribe`: the options form added to the request, if any. -/
def subscribeOptions (options : JSValue) : Except Fault (Option OptionsForm) :=
  if options.truthy then
    match objectToOptionsForm options with
    | .error f => .error f
    | .ok opts => .ok (some opts)
  else .ok none

/-- The function `doSubscribe(node, options, callbacks, origNode,
redirectCount)`. -/
def doSubscribe {α : Type} (self : Entity α) (node : String) (options callbacks : JSValue)
    (origNode : String) (redirectCount : Nat) : Outcome α :=
  match subscribeOptions options with
  | .error f => .throw f
  | .ok opts =>
    .emit [.send ⟨self.pubSubURI.path, "set", .subscribe node self.jid opts⟩
      (.subscribe node options callbacks origNode redirectCount)]

/-- The function `doGetSubcriptions(node, callbacks, origNode, redirectCount,
strict)`. -/
def doGetSubcriptions {α : Type} (self : Entity α) (node callbacks origNode : JSValue)
    (redirectCount : Nat) (strict : JSValue) : Outcome α :=
  .emit [.send ⟨self.pubSubURI.path, "get", .subscriptions (if node.truthy then some node else none)⟩
    (.getSubscriptions node callbacks origNode redirectCount strict)]

/-- The function `doConfigureNode(subscription, options, callbacks)`. -/
def doConfigureNode {α : Type} (self : Entity α) (subscription options callbacks : JSValue) :
    Outcome α :=
  let options := options.orEmpty
  match objectToOptionsForm options with
  | .error f => .throw f
  | .ok opts =>
    match subscription.getProp "node", subscription.getProp "jid", subscription.getProp "subid" with
    | .ok node, .ok jid, .ok subid =>
      .emit [.send ⟨self.pubSubURI.path, "set",
          .options { opts with attributes := [("node", node), ("jid", jid), ("subid", subid)] }⟩
        (.configureNode subscription options callbacks)]
    | _, _, _ => .throw .typeError

/-! ## Response handlers -/

/-- The test `error && error.firstChild && (error.firstChild.tagName ===
'redirect' || error.firstChild.tagName === 'gone')` of `subscriptionHandler`;
it yields `error.firstChild` when it holds. -/
def redirectChild (error : Option Element) : Option Node :=
  match error with
  | none => none
  | some e =>
    match e.firstChild with
    | none => none
    | some c => if c.tagName = some "redirect" ∨ c.tagName = some "gone" then some c else none

/-- The end of the success branch of `subscriptionHandler`: with
`pubSub = packet.getNode().getElementsByTagName('pubsub')[0] || {}` and
`subscription = pubSub.firstChild`, fire the event of a `subscription`
element. -/
def subscriptionEvent {α : Type} (self : Entity α) (packet : Packet) : Outcome α :=
  match ((packet.node.getElementsByTagName "pubsub").head?).bind Element.firstChild with
  | none => .done
  | some subscription =>
    if subscription.tagName = some "subscription" then
      match packetType (some subscription) with
      | .error f => .throw f
      | .ok type => fireEvent self type packet
    else .done

/-- The function `subscriptionHandler(packet, node, options, callbacks,
origNode, redirects)`. -/
def subscriptionHandler {α : Type} (self : Entity α) (packet : Option Packet) (node : String)
    (options callbacks : JSValue) (origNode : String) (redirects : Nat) : Outcome α :=
  let callbacks := callbacks.orEmpty
  match packet with
  | none => .done
  | some packet =>
    let finalURI := self.pubSubURI.extend (";node=" ++ node)
    let reqURI := self.pubSubURI.extend (";node=" ++ (if origNode = "" then node else origNode))
    if packet.type = "error" then
      let error := (packet.node.getElementsByTagName "error").head?
      match (if redirects < 5 then redirectChild error else none) with
      | some child =>
        let uri := self.parse child.textContent
        if truthyStr uri.path && truthyStr uri.node then
          doSubscribe self (uri.node.getD "") options callbacks origNode (redirects + 1)
        else .done
      | none => callIfPresent callbacks "onError" [.uri reqURI, .uri finalURI, .packet packet]
    else
      (callIfPresent callbacks "onSuccess" [.uri reqURI, .uri finalURI, .packet packet]).andThen
        (subscriptionEvent self packet)

/-- The function `unsubscriptionHandler(packet, node, callbacks)`. -/
def unsubscriptionHandler {α : Type} (self : Entity α) (packet : Option Packet) (node : String)
    (callbacks : JSValue) : Outcome α :=
  let uri := self.pubSubURI.extend (";node=" ++ node)
  let callbacks := callbacks.orEmpty
  match packet with
  | none => .done
  | some packet =>
    if packet.type = "error" then callIfPresent callbacks "onError" [.uri uri, .element packet.node]
    else callIfPresent callbacks "onSuccess" [.uri uri, .element packet.node]

/-- The function `getItemsHandler(packet, callbacks)`. -/
def getItemsHandler {α : Type} (self : Entity α) (packet : Option Packet)
    (callbacks : JSValue) : Outcome α :=
  let callbacks := callbacks.orEmpty
  match packet with
  | none => .done
  | some packet =>
    if packet.type = "error" then callIfPresent callbacks "onError" [.packet packet]
    else
      match callbacks.getProp "onSuccess" with
      | .error f => .throw f
      | .ok p =>
        if p.truthy then
          match convertItems self packet.node with
          | .error f => .throw f
          | .ok items => callIfPresent callbacks "onSuccess" [.items items]
        else .done

/-- The loop of `getSubscriptionsHandler` over the `subscription` elements. -/
def collectSubscriptions (jid : String) (strict : Bool) :
    List Element → List Subscription → List Subscription
  | [], subscriptions => subscriptions
  | e :: rest, subscriptions =>
    if strict && (some jid != e.getAttribute "jid") then
      collectSubscriptions jid strict rest subscriptions
    else
      collectSubscriptions jid strict rest
        (subscriptions ++ [⟨orDefault (e.getAttribute "node") "/", e.getAttribute "jid",
          e.getAttribute "subscription", e.getAttribute "subid"⟩])

/-- The function `getSubscriptionsHandler(packet, node, callbacks, origNode,
redirectCount, strict)`. -/
def getSubscriptionsHandler {α : Type} (self : Entity α) (packet : Option Packet)
    (node callbacks origNode : JSValue) (_redirectCount : Nat) (strict : JSValue) : Outcome α :=
  let callbacks := callbacks.orEmpty
  let origNode := if origNode.truthy then origNode else node
  match packet with
  | none => .done
  | some packet =>
    let finalURI := if node.truthy then self.pubSubURI.extend (";node=" ++ node.toStr)
      else self.pubSubURI
    let reqURI := if origNode.truthy then self.pubSubURI.extend (";node=" ++ origNode.toStr)
      else self.pubSubURI
    match callbacks.getProp "onError", callbacks.getProp "onSuccess" with
    | .ok onError, .ok onSuccess =>
      if packet.type = "error" && onError.truthy then
        callIfPresent callbacks "onError" [.uri reqURI, .uri finalURI, .packet packet]
      else if packet.type = "result" && onSuccess.truthy then
        callIfPresent callbacks "onSuccess" [.uri reqURI, .uri finalURI,
          .subscriptions (collectSubscriptions self.jid strict.truthy
            (packet.node.getElementsByTagName "subscription") []),
          .packet packet]
      else .done
    | _, _ => .throw .typeError

/-- The function `configureNodeHandler(packet, subscription, options,
callbacks)`; it reads `callbacks.onError` without defaulting `callbacks`. -/
def configureNodeHandler {α : Type} (packet : Option Packet) (callbacks : JSValue) : Outcome α :=
  match packet with
  | none => .done
  | some packet =>
    if packet.type = "error" then callIfPresent callbacks "onError" [.packet packet]
    else if packet.type = "result" then callIfPresent callbacks "onSuccess" [.packet packet]
    else .done

/-! ## The public operations -/

/-- The argument shuffle of `subscribe(node, options, callbacks)`, called
with `node` and the further arguments `rest` (so `arguments.length` is
`rest.length + 1`): the pair `(options, callbacks)` after
`if (arguments.length === 2) { callbacks = options; options = undefined; }`. -/
def subscribeArguments (rest : List JSValue) : JSValue × JSValue :=
  let options := rest.getD 0 (.prim .undefined)
  let callbacks := rest.getD 1 (.prim .undefined)
  if rest.length + 1 = 2 then (.prim .undefined, options) else (options, callbacks)

/-- The method `subscribe(node, options, callbacks)`, called with `node` and
the further arguments `rest`. -/
def subscribe {α : Type} (self : Entity α) (node : String) (rest : List JSValue) : Outcome α :=
  doSubscribe self node (subscribeArguments rest).1 (subscribeArguments rest).2 node 0

/-- The method `unsubscribe(node, callbacks)`. -/
def unsubscribe {α : Type} (self : Entity α) (node : String) (callbacks : JSValue) : Outcome α :=
  .emit [.send ⟨self.pubSubURI.path, "set", .unsubscribe node self.jid⟩
    (.unsubscribe node callbacks)]

/-- The method `getItems(node, callbacks)`. -/
def getItems {α : Type} (self : Entity α) (node : String) (callbacks : JSValue) : Outcome α :=
  .emit [.send ⟨self.pubSubURI.path, "get", .items node⟩ (.getItems callbacks)]

/-- The method `getSubscriptions(node, callbacks, strictJIDMatch)`, called
with the argument list `arguments`. The function is not in strict mode, so
each parameter that received an argument is one variable with its slot of
`arguments`: in the two-argument branch `callbacks = arguments[0]` also
writes `arguments[1]`, and `strictJIDMatch = arguments[1]` then reads the
callback set. -/
def getSubscriptions {α : Type} (self : Entity α) (arguments : List JSValue) : Outcome α :=
  let undefined := JSValue.prim .undefined
  let node := arguments.getD 0 undefined
  let callbacks := arguments.getD 1 undefined
  let strictJIDMatch := arguments.getD 2 undefined
  if arguments.length = 1 then doGetSubcriptions self undefined node undefined 0 undefined
  else
    match (if arguments.length = 2 then
             match node.hasOwnProperty "onSucess" with
             | .error f => Except.error f
             | .ok true => Except.ok true
             | .ok false => node.hasOwnProperty "onError"
           else Except.ok false) with
    | .error f => .throw f
    | .ok true => doGetSubcriptions self undefined node undefined 0 node
    | .ok false => doGetSubcriptions self node callbacks node 0 strictJIDMatch

/-- The method `configureNode(subscription, options, callbacks)`. -/
def configureNode {α : Type} (self : Entity α) (subscription options callbacks : JSValue) :
    Outcome α :=
  doConfigureNode self subscription options callbacks

/-- The method `registerHandler(event, handler)`: the slot named `event` is
overwritten; a name outside the five event names sets a property that
nothing reads. -/
def registerHandler {α : Type} (self : Entity α) (event : String) (handler : Option Nat) :
    Entity α :=
  if event = "onPending" then { self with handlers := { self.handlers with onPending := handler } }
  else if event = "onSubscribed" then
    { self with handlers := { self.handlers with onSubscribed := handler } }
  else if event = "onUnsubscribed" then
    { self with handlers := { self.handlers with onUnsubscribed := handler } }
  else if event = "onPublish" then
    { self with handlers := { self.handlers with onPublish := handler } }
  else if event = "onRetract" then
    { self with handlers := { self.handlers with onRetract := handler } }
  else self

/-- The method `unregisterHandler(event)`: its body is empty. -/
def unregisterHandler {α : Type} (self : Entity α) (_event : String) : Entity α :=
  self

/-! ## The transport -/

/-- The completion `cb(packet, ...context)` the transport runs for a request:
the response handler bound when the request was sent. -/
def deliver {α : Type} (self : Entity α) (packet : Option Packet) : Context → Outcome α
  | .subscribe node options callbacks origNode redirectCount =>
    subscriptionHandler self packet node options callbacks origNode redirectCount
  | .unsubscribe node callbacks => unsubscriptionHandler self packet node callbacks
  | .getItems callbacks => getItemsHandler self packet callbacks
  | .getSubscriptions node callbacks origNode redirectCount strict =>
    getSubscriptionsHandler self packet node callbacks origNode redirectCount strict
  | .configureNode _ _ callbacks => configureNodeHandler packet callbacks

/-- The context of the first request among the effects, if any. -/
def pendingContext {α : Type} : List (Effect α) → Option Context
  | [] => none
  | .send _ context :: _ => some context
  | .call _ _ _ :: rest => pendingContext rest

/-- Modelled from the spec: the connection (`connection.send`) is not among
the sources; it dispatches one request and invokes the completion exactly
once, with a response document or an absent value, carrying the context
through unchanged. Here the transport answers each request sent with the
next entry of `responses` (`none`: no response document arrives), and the
result is the effects of the completions, in order; a completion that sends
a request is followed by the completion of that request. -/
def converse {α : Type} (self : Entity α) : List (Option Packet) → Context → List (Effect α)
  | [], _ => []
  | response :: rest, context =>
    let out := deliver self response context
    out.effects ++
      (match pendingContext out.effects with
       | none => []
       | some next => converse self rest next)

/-- Everything a `subscribe` call does, the exchange with the transport
included. -/
def subscribeTrace {α : Type} (self : Entity α) (node : String) (rest : List JSValue)
    (responses : List (Option Packet)) : List (Effect α) :=
  let out := subscribe self node rest
  out.effects ++
    (match pendingContext out.effects with
     | none => []
     | some context => converse self responses context)

/-- The requests among the effects, each with its bound context. -/
def sent {α : Type} : List (Effect α) → List (Request × Context)
  | [] => []
  | .send request context :: rest => (request, context) :: sent rest
  | .call _ _ _ :: rest => sent rest

/-- The calls among the effects. -/
def calls {α : Type} : List (Effect α) → List (String × Nat × List (Arg α))
  | [] => []
  | .send _ _ :: rest => calls rest
  | .call name fn args :: rest => (name, fn, args) :: calls rest

/-! ## What the claims speak about -/

/-- A sample `OX.URI.parse`, defined on the two texts the samples use. -/
def sampleParse (text : String) : ParsedURI :=
  if text = "xmpp:pubsub.example.com?;node=/moved" then
    ⟨some "pubsub.example.com", some "/moved"⟩
  else if text = "xmpp:pubsub.example.com" then ⟨some "pubsub.example.com", none⟩
  else ⟨none, none⟩

/-- A sample entity: items are decoded to their text content, and the five
handlers are registered. -/
def sampleEntity : Entity String :=
  { pubSubURI := ⟨some "pubsub.example.com", none⟩
    jid := "a@b"
    parse := sampleParse
    itemFromElement := fun n => n.textContent
    handlers := ⟨some 10, some 11, some 12, some 13, some 14⟩ }

/-- A sample callback set: `{onSuccess: f1, onError: f2}`. -/
def sampleCallbacks : JSValue := .obj [("onSuccess", .fn 1), ("onError", .fn 2)] []

/-- A redirect error response with a usable replacement address and node. -/
def redirectPacket : Packet :=
  ⟨"error", ⟨"iq", [("from", "pubsub.example.com")],
    [.element "error" [] [.element "redirect" [] [.text "xmpp:pubsub.example.com?;node=/moved"]]]⟩⟩

/-- A gone error response whose detail names an address but no node. -/
def gonePacket : Packet :=
  ⟨"error", ⟨"iq", [("from", "pubsub.example.com")],
    [.element "error" [] [.element "gone" [] [.text "xmpp:pubsub.example.com"]]]⟩⟩

/-- A successful response without a body. -/
def resultPacket : Packet :=
  ⟨"result", ⟨"iq", [("from", "pubsub.example.com")], []⟩⟩

/-- A `getSubscriptions` response with the entries `a@b/res1` and `a@b`. -/
def subscriptionsPacket : Packet :=
  ⟨"result", ⟨"iq", [("from", "pubsub.example.com")],
    [.element "pubsub" [] [.element "subscriptions" []
      [.element "subscription" [("node", "n1"), ("jid", "a@b/res1"), ("subscription", "subscribed")] [],
       .element "subscription" [("node", "n2"), ("jid", "a@b"), ("subscription", "pending")] []]]]⟩⟩

/-- A `getSubscriptions` response whose entry has an empty `node` attribute. -/
def emptyNodePacket : Packet :=
  ⟨"result", ⟨"iq", [("from", "pubsub.example.com")],
    [.element "pubsub" [] [.element "subscriptions" []
      [.element "subscription" [("node", ""), ("jid", "a@b")] []]]]⟩⟩

/-- A document with one item entry whose first child is character data. -/
def textItemDocument : Element :=
  ⟨"iq", [("from", "pubsub.example.com")],
    [.element "pubsub" [] [.element "items" [("node", "songs")]
      [.element "item" [("id", "1")] [.text "hello"]]]]⟩

/-- A document with the item entries `1` and `2` under the node `songs`. -/
def songsDocument : Element :=
  ⟨"iq", [("from", "pubsub.example.com")],
    [.element "pubsub" [] [.element "items" [("node", "songs")]
      [.element "item" [("id", "1")] [.element "song" [("publish-time", "t1")] []],
       .element "item" [("id", "2")] []]]]⟩

/-- A push document whose event envelope holds a retraction of the item `7`
under the node `x`, after an `items` element outside the envelope. -/
def lateRetractPacket : Packet :=
  ⟨"", ⟨"message", [("from", "pubsub.example.com")],
    [.element "items" [("node", "y")] [.element "item" [("id", "9")] []],
     .element "event" [] [.element "items" [("node", "x")] [.element "retract" [("id", "7")] []]]]⟩⟩

/-- A push document that is the retraction of the item `7` under the node `x`. -/
def retractPacket : Packet :=
  ⟨"", ⟨"message", [("from", "pubsub.example.com")],
    [.element "event" [] [.element "items" [("node", "x")] [.element "retract" [("id", "7")] []]]]⟩⟩

/-- A push document whose event envelope, with a `subscribed` notification
for the node `right`, comes after another child of the root. -/
def lateEventPacket : Packet :=
  ⟨"", ⟨"message", [("from", "pubsub.example.com")],
    [.element "delay" [] [.element "x" [("node", "wrong")] []],
     .element "event" []
       [.element "subscription" [("node", "right"), ("subscription", "subscribed")] []]]⟩⟩

/-- A push document that is a `pending` notification for the node `n`. -/
def pendingPacket : Packet :=
  ⟨"", ⟨"message", [("from", "pubsub.example.com")],
    [.element "event" []
       [.element "subscription" [("node", "n"), ("subscription", "pending")] []]]⟩⟩

/-- A push document publishing the items `1` and `2` under the node `songs`. -/
def publishPacket : Packet :=
  ⟨"", ⟨"message", [("from", "pubsub.example.com")],
    [.element "event" [] [.element "items" [("node", "songs")]
      [.element "item" [("id", "1")] [.element "song" [] [.text "a"]],
       .element "item" [("id", "2")] [.element "song" [] [.text "b"]]]]]⟩⟩

/-- The condition of an error response: the first child of its first
`error` element. -/
def errorCondition (packet : Packet) : Option Node :=
  ((packet.node.getElementsByTagName "error").head?).bind Element.firstChild

/-- A redirect/gone error response: an error response whose condition is a
`redirect` or a `gone` element. -/
def isRedirect (packet : Packet) : Bool :=
  packet.type = "error" &&
    (match errorCondition packet with
     | some c => c.tagName = some "redirect" || c.tagName = some "gone"
     | none => false)

/-- The replacement node of a redirect/gone error response whose detail
yields both a replacement address and a node. -/
def replacementNode {α : Type} (self : Entity α) (packet : Packet) : Option String :=
  if isRedirect packet then
    match errorCondition packet with
    | some c =>
      if truthyStr (self.parse c.textContent).path && truthyStr (self.parse c.textContent).node
      then (self.parse c.textContent).node else none
    | none => none
  else none

/-- The calls of `onSuccess` and `onError` among the effects. -/
def callbackCalls {α : Type} (es : List (Effect α)) : List (String × Nat × List (Arg α)) :=
  (calls es).filter (fun c => c.1 = "onSuccess" || c.1 = "onError")

/-- The redirect count bound to a `subscribe` request. -/
def Context.redirectCount? : Context → Option Nat
  | .subscribe _ _ _ _ redirectCount => some redirectCount
  | _ => none

/-- The string consists of decimal digits only. -/
def isDecimal (s : String) : Bool :=
  s.data.all Char.isDigit

/-- The instant 2024-01-02T03:04:05.006Z. -/
def instant : UTCDate :=
  ⟨2024, 0, 2, 3, 4, 5, 6, by decide, by decide, by decide, by decide, by decide, by decide,
    by decide⟩

/-- The entry the claim C6 describes for a `subscription` element: the node
is `/` when the attribute is absent. -/
def claimedSubscription (e : Element) : Subscription :=
  ⟨(e.getAttribute "node").getD "/", e.getAttribute "jid", e.getAttribute "subscription",
    e.getAttribute "subid"⟩

/-- The entry built for a `subscription` element: the node is `/` when the
attribute is absent or empty. -/
def subscriptionEntry (e : Element) : Subscription :=
  ⟨orDefault (e.getAttribute "node") "/", e.getAttribute "jid", e.getAttribute "subscription",
    e.getAttribute "subid"⟩

/-- The `subscription` elements of a response, in document order; with
`strict`, those whose `jid` attribute is the given JID. -/
def subscriptionElements (jid : String) (strict : Bool) (document : Element) : List Element :=
  (document.getElementsByTagName "subscription").filter
    (fun e => !strict || decide (e.getAttribute "jid" = some jid))

/-- The attribute of a node: `none` when the node is not an element or has
no such attribute. -/
def Node.attribute (n : Node) (name : String) : Option String :=
  match n with
  | .element _ attrs _ => attrs.lookup name
  | .text _ => none

/-- The item entries of a container: its direct children tagged `item`. -/
def itemEntries (container : Element) : List Node :=
  container.childNodes.filter (fun c => decide (c.tagName = some "item"))

/-- The item listed for an entry of a container: its URI is the `from`
address of the document with the query `;node=N;item=id`, where `N` is the
container's `node` attribute (`/` when absent or empty) and `id` the entry's
`id` attribute; its publish time is the `publish-time` attribute of the
entry's first child. -/
def listedItem {α : Type} (self : Entity α) (document container : Element) (entry : Node) :
    Item α :=
  ⟨self.itemFromElement entry,
    (entry.firstChild).bind (fun c => c.attribute "publish-time"),
    ⟨document.getAttribute "from",
      some (";node=" ++ orDefault (container.getAttribute "node") "/" ++ ";item=" ++
        strOrNull (entry.attribute "id"))⟩⟩

/-- One item per item entry of every `items` element below the document
root: containers in document order, entries in order within each. -/
def listedItems {α : Type} (self : Entity α) (document : Element) : List (Item α) :=
  (document.getElementsByTagName "items").flatMap
    (fun container => (itemEntries container).map (listedItem self document container))

/-- The first child of the node, if any, is an element. -/
def Node.firstChildIsElement (n : Node) : Bool :=
  match n.firstChild with
  | none => true
  | some (.element _ _ _) => true
  | some (.text _) => false

/-- Every item entry of the document has an element as its first child, or
no child at all. -/
def decodable (document : Element) : Bool :=
  (document.getElementsByTagName "items").all
    (fun container => (itemEntries container).all Node.firstChildIsElement)

/-- The handler name a subscription state resolves to. -/
def stateHandler (state : String) : Option String :=
  if state = "none" then some "onUnsubscribed"
  else if state = "pending" then some "onPending"
  else if state = "subscribed" then some "onSubscribed"
  else none

/-- The slot of the handler table with the given name. -/
def Registry.slot (r : Registry) (name : String) : Option Nat :=
  if name = "onPending" then r.onPending
  else if name = "onSubscribed" then r.onSubscribed
  else if name = "onUnsubscribed" then r.onUnsubscribed
  else if name = "onPublish" then r.onPublish
  else if name = "onRetract" then r.onRetract
  else none

/-- Everything an operation does, the exchange with the transport included:
the effects of the call `out`, then those of the completions of the request
it sent, answered by `responses`. -/
def exchange {α : Type} (self : Entity α) (out : Outcome α)
    (responses : List (Option Packet)) : List (Effect α) :=
  out.effects ++
    (match pendingContext out.effects with
     | none => []
     | some context => converse self responses context)

/-- The five event names of the handler table. -/
def eventNames : List String :=
  ["onPending", "onSubscribed", "onUnsubscribed", "onPublish", "onRetract"]

/-- A configuration call's subscription: `{node: 'n', jid: 'a@b', subid: 's1'}`. -/
def sampleSubscription : JSValue :=
  .obj [("node", .str "n"), ("jid", .str "a@b"), ("subid", .str "s1")] []

/-- The node a chain of followed redirects leads to from `node`: the
replacement node of the last response of the chain (`node` itself for the
empty chain). -/
def redirectedNode {α : Type} (self : Entity α) : String → List Packet → String
  | node, [] => node
  | node, p :: ps => redirectedNode self ((replacementNode self p).getD node) ps

/-- The property value is a `Date`. -/
def Prim.isDate : Prim → Bool
  | .date _ => true
  | _ => false

/-- The value of the wire field for the option `o` of value `v`: what the
transform of `o` returns, when the table has one and it returns; the value
itself otherwise. -/
def fieldValue (o : String) (v : Prim) : Prim :=
  match optionTransforms o v with
  | some (.ok result) => result
  | _ => v

/-- A successful `subscribe` response whose subscription element names the
node `/other`. -/
def subscribedOtherPacket : Packet :=
  ⟨"result", ⟨"iq", [("from", "pubsub.example.com")],
    [.element "pubsub" []
      [.element "subscription"
        [("node", "/other"), ("jid", "a@b"), ("subscription", "subscribed")] []]]⟩⟩

/-- A successful `subscribe` response whose subscription element names no
node. -/
def subscribedUnnamedPacket : Packet :=
  ⟨"result", ⟨"iq", [("from", "pubsub.example.com")],
    [.element "pubsub" []
      [.element "subscription" [("jid", "a@b"), ("subscription", "subscribed")] []]]⟩⟩

/-- A successful `subscribe` response whose subscription element, in the
state `pending`, names the node `/n`. -/
def pendingResponsePacket : Packet :=
  ⟨"result", ⟨"iq", [("from", "pubsub.example.com")],
    [.element "pubsub" []
      [.element "subscription" [("node", "/n"), ("subscription", "pending")] []]]⟩⟩

/-- A push document whose event envelope has no child. -/
def emptyEventPacket : Packet :=
  ⟨"", ⟨"message", [("from", "pubsub.example.com")], [.element "event" [] []]⟩⟩

/-- A push document whose subscription element has the state `retract`. -/
def retractStatePacket : Packet :=
  ⟨"", ⟨"message", [("from", "pubsub.example.com")],
    [.element "event" [] [.element "subscription" [("subscription", "retract")] []]]⟩⟩

/-- A push document whose subscription element has the state `unconfigured`. -/
def unconfiguredPacket : Packet :=
  ⟨"", ⟨"message", [("from", "pubsub.example.com")],
    [.element "event" [] [.element "subscription" [("subscription", "unconfigured")] []]]⟩⟩

/-- The instant 0000-01-01T00:00:00.000Z, whose year, hours, minutes and
seconds are all 0. -/
def midnight : UTCDate :=
  ⟨0, 0, 1, 0, 0, 0, 0, by decide, by decide, by decide, by decide, by decide, by decide,
    by decide⟩

/-- A string is the rendering of the number `n` in exactly `width` decimal
digits, padded with zeros on the left. -/
def rendersAs (s : String) (width n : Nat) : Prop :=
  s.length = width ∧ isDecimal s = true ∧ decimalValue s = n

instance (s : String) (width n : Nat) : Decidable (rendersAs s width n) := by
  unfold rendersAs
  exact inferInstance

/-- The options object `{digest: true}`. -/
def digestOptions : JSValue := .obj [("digest", .bool true)] []

/-- An error response that is not a redirect. -/
def forbiddenPacket : Packet :=
  ⟨"error", ⟨"iq", [("from", "pubsub.example.com")],
    [.element "error" [] [.element "forbidden" [] []]]⟩⟩

/-- A push document whose event envelope holds an `items` element without
children. -/
def emptyItemsPacket : Packet :=
  ⟨"", ⟨"message", [("from", "pubsub.example.com")],
    [.element "event" [] [.element "items" [("node", "/n")] []]]⟩⟩

/-- The names an object literal inherits from `Object.prototype`. -/
def objectPrototypeNames : List String :=
  ["constructor", "toString", "toLocaleString", "valueOf", "hasOwnProperty", "isPrototypeOf",
    "propertyIsEnumerable", "__lookupGetter__", "__lookupSetter__", "__defineGetter__",
    "__defineSetter__", "__proto__"]

/-- The options object `{deliver: true, 2: 'b', expire: <the sample instant>, 1: 'a'}`. -/
def indexedOptions : List (String × Prim) :=
  [("deliver", .bool true), ("2", .str "b"), ("expire", .date instant), ("1", .str "a")]

/-- The function the callback set supplies under `name`, if it supplies one:
the value of `(callbacks || {})[name]` when that value is a function. -/
def suppliedCallback (callbacks : JSValue) (name : String) : Option Nat :=
  match callbacks.orEmpty.getProp name with
  | .ok (.fn f) => some f
  | _ => none

/-- The callback a terminal response is reported to: `onError` for an error
response, `onSuccess` for any other. -/
def terminalCallback (terminal : Packet) : String :=
  if terminal.type = "error" then "onError" else "onSuccess"

/-! ## Theorems -/

theorem redirectChild_of_isRedirect (packet : Packet) (h : isRedirect packet = true) :
    packet.type = "error" ∧
      redirectChild (packet.node.getElementsByTagName "error").head? = errorCondition packet ∧
      (errorCondition packet).isSome := by
  unfold isRedirect at h
  simp only [Bool.and_eq_true, decide_eq_true_eq] at h
  obtain ⟨ht, hc⟩ := h
  refine ⟨ht, ?_⟩
  unfold errorCondition at hc ⊢
  unfold redirectChild
  cases hE : (packet.node.getElementsByTagName "error").head? with
  | none => simp [hE] at hc
  | some e =>
    simp only [hE, Option.some_bind] at hc ⊢
    cases hF : e.firstChild with
    | none => simp [hF] at hc
    | some c =>
      simp only [hF] at hc ⊢
      simp only [Bool.or_eq_true, decide_eq_true_eq] at hc
      simp [hc]

theorem subscriptionHandler_redirect {α : Type} (self : Entity α) (packet : Packet)
    (newNode : String) (h : replacementNode self packet = some newNode)
    (node : String) (options callbacks : JSValue) (origNode : String) (redirects : Nat)
    (hd : redirects < 5) :
    subscriptionHandler self (some packet) node options callbacks origNode redirects =
      doSubscribe self newNode options callbacks.orEmpty origNode (redirects + 1) := by
  unfold replacementNode at h
  cases hR : isRedirect packet with
  | false => simp [hR] at h
  | true =>
    obtain ⟨ht, hc, hs⟩ := redirectChild_of_isRedirect packet hR
    simp only [hR, if_true] at h
    cases hE : errorCondition packet with
    | none => simp [hE] at hs
    | some c =>
      simp only [hE] at h
      split at h
      · rename_i hu
        unfold subscriptionHandler
        rw [h] at hu
        simp only [ht, if_true, hd, hc, hE, hu, h, Option.getD_some]
      · cases h

theorem sent_append {α : Type} (a b : List (Effect α)) : sent (a ++ b) = sent a ++ sent b := by
  induction a with
  | nil => rfl
  | cons e es ih => cases e <;> simp [sent, ih]

theorem calls_append {α : Type} (a b : List (Effect α)) : calls (a ++ b) = calls a ++ calls b := by
  induction a with
  | nil => rfl
  | cons e es ih => cases e <;> simp [calls, ih]

theorem callbackCalls_append {α : Type} (a b : List (Effect α)) :
    callbackCalls (a ++ b) = callbackCalls a ++ callbackCalls b := by
  simp [callbackCalls, calls_append]

theorem sent_map_call {α β : Type} (name : String) (fn : Nat) (g : β → List (Arg α))
    (l : List β) : sent (l.map (fun i => Effect.call name fn (g i))) = [] := by
  induction l with
  | nil => rfl
  | cons x xs ih => simp [sent, ih]

theorem callbackCalls_map_call {α β : Type} (name : String) (fn : Nat) (g : β → List (Arg α))
    (l : List β) (h1 : name ≠ "onSuccess") (h2 : name ≠ "onError") :
    callbackCalls (l.map (fun i => Effect.call name fn (g i))) = [] := by
  induction l with
  | nil => rfl
  | cons x xs ih =>
    simp only [callbackCalls] at ih ⊢
    simp [calls, ih, h1, h2]

theorem fireSubscription_quiet {α : Type} (slot : Option Nat) (name : String) (packet : Packet)
    (h1 : name ≠ "onSuccess") (h2 : name ≠ "onError") :
    sent (fireSubscription slot name packet : Outcome α).effects = [] ∧
      callbackCalls (fireSubscription slot name packet : Outcome α).effects = [] := by
  unfold fireSubscription
  cases slot with
  | none => exact ⟨rfl, rfl⟩
  | some fn =>
    cases subscriptionURI packet with
    | error f => exact ⟨rfl, rfl⟩
    | ok uri => simp [Outcome.emit, sent, callbackCalls, calls, h1, h2]

theorem fireEvent_quiet {α : Type} (self : Entity α) (type : Option String) (packet : Packet) :
    sent (fireEvent self type packet).effects = [] ∧
      callbackCalls (fireEvent self type packet).effects = [] := by
  unfold fireEvent
  split
  · exact fireSubscription_quiet _ _ _ (by decide) (by decide)
  split
  · exact fireSubscription_quiet _ _ _ (by decide) (by decide)
  split
  · exact fireSubscription_quiet _ _ _ (by decide) (by decide)
  split
  · cases self.handlers.onPublish with
    | none => exact ⟨rfl, rfl⟩
    | some fn =>
      cases convertItems self packet.node with
      | error f => exact ⟨rfl, rfl⟩
      | ok items =>
        exact ⟨sent_map_call _ _ _ _, callbackCalls_map_call _ _ _ _ (by decide) (by decide)⟩
  split
  · cases self.handlers.onRetract with
    | none => exact ⟨rfl, rfl⟩
    | some fn =>
      cases retractURI packet with
      | error f => exact ⟨rfl, rfl⟩
      | ok uri => simp [Outcome.emit, sent, callbackCalls, calls]
  · exact ⟨rfl, rfl⟩

theorem orEmpty_of_getProp_fn (v : JSValue) (name : String) (fn : Nat)
    (h : v.getProp name = .ok (.fn fn)) : v.orEmpty = v := by
  cases v with
  | prim p => cases p <;> simp [JSValue.getProp] at h
  | obj own inherited => simp [JSValue.orEmpty, JSValue.truthy]

theorem orEmpty_orEmpty (v : JSValue) : v.orEmpty.orEmpty = v.orEmpty := by
  unfold JSValue.orEmpty
  split
  · rename_i h; simp [h]
  · simp [JSValue.truthy]

theorem callIfPresent_fn {α : Type} (callbacks : JSValue) (name : String) (fn : Nat)
    (args : List (Arg α)) (h : callbacks.getProp name = .ok (.fn fn)) :
    callIfPresent callbacks name args = .emit [.call name fn args] := by
  simp [callIfPresent, h, Prim.truthy]

theorem redirectChild_of_not_isRedirect (packet : Packet) (ht : packet.type = "error")
    (h : isRedirect packet = false) :
    redirectChild (packet.node.getElementsByTagName "error").head? = none := by
  unfold isRedirect at h
  simp only [ht, decide_True, Bool.true_and] at h
  unfold errorCondition at h
  unfold redirectChild
  cases hE : (packet.node.getElementsByTagName "error").head? with
  | none => rfl
  | some e =>
    simp only [hE, Option.some_bind] at h ⊢
    cases hF : e.firstChild with
    | none => rfl
    | some c =>
      simp only [hF] at h ⊢
      simp only [Bool.or_eq_false_iff, decide_eq_false_iff_not] at h
      simp [h.1, h.2]

theorem subscriptionEvent_quiet {α : Type} (self : Entity α) (packet : Packet) :
    sent (subscriptionEvent self packet).effects = [] ∧
      callbackCalls (subscriptionEvent self packet).effects = [] := by
  unfold subscriptionEvent
  split
  · exact ⟨rfl, rfl⟩
  · rename_i sub _
    split
    · cases packetType (some sub) with
      | error f => exact ⟨rfl, rfl⟩
      | ok type => exact fireEvent_quiet self type packet
    · exact ⟨rfl, rfl⟩

theorem subscriptionHandler_terminal {α : Type} (self : Entity α) (packet : Packet)
    (h : isRedirect packet = false) (node : String) (options callbacks : JSValue)
    (origNode : String) (redirects : Nat) (onSuccess onError : Nat)
    (hs : callbacks.orEmpty.getProp "onSuccess" = .ok (.fn onSuccess))
    (he : callbacks.orEmpty.getProp "onError" = .ok (.fn onError)) :
    sent (subscriptionHandler self (some packet) node options callbacks origNode redirects).effects
        = [] ∧
      (callbackCalls
        (subscriptionHandler self (some packet) node options callbacks origNode
          redirects).effects).map (fun c => (c.1, c.2.1)) =
        [if packet.type = "error" then ("onError", onError) else ("onSuccess", onSuccess)] := by
  unfold subscriptionHandler
  by_cases ht : packet.type = "error"
  · have hrc := redirectChild_of_not_isRedirect packet ht h
    simp only [ht, if_true, hrc, ite_self, callIfPresent_fn _ _ _ _ he]
    simp [Outcome.emit, sent, callbackCalls, calls]
  · simp only [ht, if_false, callIfPresent_fn _ _ _ _ hs]
    simp only [Outcome.andThen, Outcome.emit, sent_append, callbackCalls_append,
      (subscriptionEvent_quiet self packet).1, (subscriptionEvent_quiet self packet).2]
    simp [sent, callbackCalls, calls]

theorem doSubscribe_ok {α : Type} (self : Entity α) (node : String) (options callbacks : JSValue)
    (origNode : String) (redirectCount : Nat) (opts : Option OptionsForm)
    (h : subscribeOptions options = .ok opts) :
    doSubscribe self node options callbacks origNode redirectCount =
      .emit [.send ⟨self.pubSubURI.path, "set", .subscribe node self.jid opts⟩
        (.subscribe node options callbacks origNode redirectCount)] := by
  simp [doSubscribe, h]

theorem subscribeOptions_of_no_fault {α : Type} (self : Entity α) (node : String)
    (options callbacks : JSValue) (origNode : String) (redirectCount : Nat)
    (h : (doSubscribe self node options callbacks origNode redirectCount).fault = none) :
    ∃ opts, subscribeOptions options = .ok opts := by
  unfold doSubscribe at h
  cases hO : subscribeOptions options with
  | error f => simp [hO, Outcome.throw] at h
  | ok opts => exact ⟨opts, rfl⟩

theorem converse_cons {α : Type} (self : Entity α) (response : Option Packet)
    (rest : List (Option Packet)) (context : Context) :
    converse self (response :: rest) context =
      (deliver self response context).effects ++
        (match pendingContext (deliver self response context).effects with
         | none => []
         | some next => converse self rest next) := rfl

theorem converse_redirects {α : Type} (self : Entity α) (options : JSValue) (origNode : String)
    (opts : Option OptionsForm) (hopts : subscribeOptions options = .ok opts)
    (tail : List (Option Packet)) :
    ∀ (chain : List Packet) (node : String) (callbacks : JSValue) (d : Nat),
      d + chain.length ≤ 5 → (∀ p ∈ chain, (replacementNode self p).isSome) →
      ∃ (sends : List (Effect α)) (node2 : String) (callbacks2 : JSValue),
        converse self (chain.map some ++ tail) (.subscribe node options callbacks origNode d) =
          sends ++ converse self tail
            (.subscribe node2 options callbacks2 origNode (d + chain.length)) ∧
        callbacks2.orEmpty = callbacks.orEmpty ∧ calls sends = [] ∧
        (sent sends).map (fun rc => rc.2.redirectCount?) =
          (List.range' (d + 1) chain.length).map some := by
  intro chain
  induction chain with
  | nil =>
    intro node callbacks d _ _
    exact ⟨[], node, callbacks, by simp, rfl, rfl, rfl⟩
  | cons p ps ih =>
    intro node callbacks d hd hall
    have hp : (replacementNode self p).isSome := hall p (List.mem_cons_self _ _)
    obtain ⟨n1, hn1⟩ := Option.isSome_iff_exists.mp hp
    have hlen : d + 1 + ps.length ≤ 5 := by simp only [List.length_cons] at hd; omega
    obtain ⟨sends, node2, callbacks2, hconv, hcb, hcalls, hsent⟩ :=
      ih n1 callbacks.orEmpty (d + 1) hlen (fun q hq => hall q (List.mem_cons_of_mem _ hq))
    refine ⟨Effect.send ⟨self.pubSubURI.path, "set", .subscribe n1 self.jid opts⟩
        (.subscribe n1 options callbacks.orEmpty origNode (d + 1)) :: sends,
      node2, callbacks2, ?_, ?_, ?_, ?_⟩
    · have hstep : deliver self (some p) (.subscribe node options callbacks origNode d) =
          .emit [.send ⟨self.pubSubURI.path, "set", .subscribe n1 self.jid opts⟩
            (.subscribe n1 options callbacks.orEmpty origNode (d + 1))] := by
        simp only [deliver]
        rw [subscriptionHandler_redirect self p n1 hn1 _ _ _ _ _ (by omega)]
        exact doSubscribe_ok _ _ _ _ _ _ _ hopts
      have hlen2 : d + 1 + ps.length = d + (p :: ps).length := by
        simp only [List.length_cons]; omega
      rw [List.map_cons, List.cons_append, converse_cons, hstep]
      simp only [Outcome.emit, pendingContext]
      rw [hconv, hlen2]
      rfl
    · rw [hcb, orEmpty_orEmpty]
    · simp [calls, hcalls]
    · simp only [sent, List.map_cons, List.length_cons, List.range'_succ]
      rw [hsent]
      rfl

theorem converse_single {α : Type} (self : Entity α) (response : Option Packet)
    (context : Context) :
    converse self [response] context = (deliver self response context).effects := by
  rw [converse_cons]
  cases pendingContext (deliver self response context).effects <;> simp [converse]

theorem type_of_replacementNode {α : Type} (self : Entity α) (packet : Packet)
    (h : (replacementNode self packet).isSome) : packet.type = "error" := by
  unfold replacementNode at h
  cases hR : isRedirect packet with
  | false => simp [hR] at h
  | true => exact (redirectChild_of_isRedirect packet hR).1

theorem subscriptionHandler_at_limit {α : Type} (self : Entity α) (packet : Packet)
    (ht : packet.type = "error") (node : String) (options callbacks : JSValue)
    (origNode : String) (redirects : Nat) (hd : 5 ≤ redirects) :
    subscriptionHandler self (some packet) node options callbacks origNode redirects =
      callIfPresent callbacks.orEmpty "onError"
        [.uri (self.pubSubURI.extend (";node=" ++ (if origNode = "" then node else origNode))),
         .uri (self.pubSubURI.extend (";node=" ++ node)), .packet packet] := by
  unfold subscriptionHandler
  have : ¬ redirects < 5 := by omega
  simp only [ht, if_true, this, if_false]

/-- C1, amended: a `subscribe` call answered by an unbroken chain of 6 or more
redirect/gone error responses, each with a usable replacement address and node, sends
exactly 6 requests (no 7th), and its only call is `callbacks.onError` with the 6th
error response. -/
theorem subscribe_chain_at_limit {α : Type} (self : Entity α) (node : String)
    (rest : List JSValue) (chain : List Packet) (onError : Nat)
    (h6 : 6 ≤ chain.length)
    (hchain : ∀ p ∈ chain, (replacementNode self p).isSome)
    (hsent : (subscribe self node rest).fault = none)
    (he : (subscribeArguments rest).2.getProp "onError" = .ok (.fn onError)) :
    (sent (subscribeTrace self node rest (chain.map some))).length = 6 ∧
      ∃ (sixth : Packet) (requestedURI finalURI : URI), chain[5]? = some sixth ∧
        calls (subscribeTrace self node rest (chain.map some)) =
          [("onError", onError, [.uri requestedURI, .uri finalURI, .packet sixth])] := by
  obtain ⟨opts, hopts⟩ := subscribeOptions_of_no_fault _ _ _ _ _ _ hsent
  have hcb := orEmpty_of_getProp_fn _ _ _ he
  have hsplit : chain = chain.take 5 ++ chain.drop 5 := (List.take_append_drop 5 chain).symm
  have hlen5 : (chain.take 5).length = 5 := by rw [List.length_take]; omega
  cases hdrop : chain.drop 5 with
  | nil =>
    have := congrArg List.length hdrop
    rw [List.length_drop] at this
    simp at this
    omega
  | cons sixth more =>
    rw [hdrop] at hsplit
    have hmem : sixth ∈ chain := by rw [hsplit]; simp
    have hfirst : ∀ p ∈ chain.take 5, (replacementNode self p).isSome :=
      fun p hp => hchain p (List.mem_of_mem_take hp)
    obtain ⟨sends, node2, callbacks2, hconv, hcb2, hcalls, hdepths⟩ :=
      converse_redirects self (subscribeArguments rest).1 node opts hopts
        (some sixth :: more.map some) (chain.take 5) node (subscribeArguments rest).2 0
        (by omega) hfirst
    rw [hcb] at hcb2
    have hget : chain[5]? = some sixth := by
      rw [hsplit, List.getElem?_append_right (by omega)]
      simp [hlen5]
    have hstep : subscriptionHandler self (some sixth) node2 (subscribeArguments rest).1
        callbacks2 node (0 + (chain.take 5).length) =
          .emit [.call "onError" onError
            [.uri (self.pubSubURI.extend (";node=" ++ (if node = "" then node2 else node))),
             .uri (self.pubSubURI.extend (";node=" ++ node2)), .packet sixth]] := by
      rw [subscriptionHandler_at_limit self sixth (type_of_replacementNode self sixth
        (hchain sixth hmem)) _ _ _ _ _ (by omega), hcb2]
      exact callIfPresent_fn _ _ _ _ he
    have htrace : subscribeTrace self node rest (chain.map some) =
        Effect.send ⟨self.pubSubURI.path, "set", .subscribe node self.jid opts⟩
            (.subscribe node (subscribeArguments rest).1 (subscribeArguments rest).2 node 0) ::
          (sends ++ [.call "onError" onError
            [.uri (self.pubSubURI.extend (";node=" ++ (if node = "" then node2 else node))),
             .uri (self.pubSubURI.extend (";node=" ++ node2)), .packet sixth]]) := by
      unfold subscribeTrace subscribe
      rw [doSubscribe_ok _ _ _ _ _ _ _ hopts]
      simp only [Outcome.emit, pendingContext]
      have hmap : chain.map some = (chain.take 5).map some ++ (some sixth :: more.map some) := by
        conv_lhs => rw [hsplit]
        simp
      rw [hmap, hconv, converse_cons]
      simp only [deliver, hstep, Outcome.emit, pendingContext, List.append_nil]
      rfl
    constructor
    · rw [htrace]
      have := congrArg List.length hdepths
      simp only [List.length_map, List.length_range', hlen5] at this
      simp [sent, sent_append, this]
    · refine ⟨sixth, self.pubSubURI.extend (";node=" ++ (if node = "" then node2 else node)),
        self.pubSubURI.extend (";node=" ++ node2), hget, ?_⟩
      rw [htrace]
      simp [calls, calls_append, hcalls]

/-- C1 (as stated) fails: answered by 5 redirect responses, each with a usable
replacement address and node, a `subscribe` call sends 6 requests, the 6th in reaction to
the 5th error response, which is not handed to `onError`: nothing is called. -/
theorem subscribe_five_redirects_counterexample :
    (sent (subscribeTrace sampleEntity "/n" [sampleCallbacks]
        (List.replicate 5 (some redirectPacket)))).length = 6 ∧
      calls (subscribeTrace sampleEntity "/n" [sampleCallbacks]
        (List.replicate 5 (some redirectPacket))) = [] := by
  decide

/-- The instance of C1 (amended) on a chain of 7 redirect responses. -/
theorem subscribe_chain_at_limit_witness :
    (sent (subscribeTrace sampleEntity "/n" [sampleCallbacks]
        ((List.replicate 7 redirectPacket).map some))).length = 6 ∧
      ∃ (sixth : Packet) (requestedURI finalURI : URI),
        (List.replicate 7 redirectPacket)[5]? = some sixth ∧
        calls (subscribeTrace sampleEntity "/n" [sampleCallbacks]
            ((List.replicate 7 redirectPacket).map some)) =
          [("onError", 2, [.uri requestedURI, .uri finalURI, .packet sixth])] :=
  subscribe_chain_at_limit sampleEntity "/n" [sampleCallbacks] (List.replicate 7 redirectPacket) 2
    (by decide) (by decide) (by decide) (by decide)

theorem zeroPadLoop_data (i : Nat) (rc : String) :
    (zeroPadLoop i rc).data = List.replicate i '0' ++ rc.data := by
  induction i generalizing rc with
  | zero => rfl
  | succ i ih =>
    rw [zeroPadLoop, ih, String.data_append, List.replicate_succ', List.append_assoc]

theorem zeroPadLoop_length (i : Nat) (rc : String) :
    (zeroPadLoop i rc).length = i + rc.length := by
  show (zeroPadLoop i rc).data.length = i + rc.data.length
  rw [zeroPadLoop_data, List.length_append, List.length_replicate]

theorem digitChar_isDigit (d : Nat) (h : d < 10) : (Nat.digitChar d).isDigit = true := by
  interval_cases d <;> rfl

theorem digitChar_value (d : Nat) (h : d < 10) : (Nat.digitChar d).toNat - 48 = d := by
  interval_cases d <;> rfl

theorem toDigitsCore_isDigit (fuel : Nat) :
    ∀ (n : Nat) (ds : List Char), (∀ c ∈ ds, c.isDigit = true) →
      ∀ c ∈ Nat.toDigitsCore 10 fuel n ds, c.isDigit = true := by
  induction fuel with
  | zero => intro n ds h; simpa [Nat.toDigitsCore] using h
  | succ fuel ih =>
    intro n ds h
    have hd : ∀ c ∈ Nat.digitChar (n % 10) :: ds, c.isDigit = true := by
      intro c hc
      rcases List.mem_cons.mp hc with rfl | hc
      · exact digitChar_isDigit _ (Nat.mod_lt _ (by decide))
      · exact h c hc
    simp only [Nat.toDigitsCore]
    split
    · exact hd
    · exact ih _ _ hd

theorem foldl_decimal (l : List Char) (a : Nat) :
    l.foldl (fun acc c => 10 * acc + (c.toNat - 48)) a =
      a * 10 ^ l.length + l.foldl (fun acc c => 10 * acc + (c.toNat - 48)) 0 := by
  induction l generalizing a with
  | nil => simp
  | cons c cs ih =>
    simp only [List.foldl_cons, List.length_cons]
    rw [ih, ih (10 * 0 + (c.toNat - 48))]
    ring

theorem toDigitsCore_value (fuel : Nat) :
    ∀ (n : Nat) (ds : List Char), n < fuel →
      (Nat.toDigitsCore 10 fuel n ds).foldl (fun acc c => 10 * acc + (c.toNat - 48)) 0 =
        n * 10 ^ ds.length + ds.foldl (fun acc c => 10 * acc + (c.toNat - 48)) 0 := by
  induction fuel with
  | zero => intro n ds h; omega
  | succ fuel ih =>
    intro n ds h
    simp only [Nat.toDigitsCore]
    split
    · rename_i h0
      have hn : n < 10 := by
        by_contra hc
        have : 1 ≤ n / 10 := (Nat.one_le_div_iff (by decide)).mpr (by omega)
        omega
      rw [List.foldl_cons, foldl_decimal, Nat.mod_eq_of_lt hn, digitChar_value n hn]
      ring
    · rename_i h0
      have hlt : n / 10 < fuel := by
        have : n / 10 < n := Nat.div_lt_self (by
          by_contra hc
          have : n = 0 := by omega
          simp [this] at h0) (by decide)
        omega
      rw [ih _ _ hlt, List.foldl_cons, foldl_decimal _ (10 * 0 + _),
        digitChar_value _ (Nat.mod_lt _ (by decide)), List.length_cons]
      have e : n * 10 ^ ds.length = (10 * (n / 10) + n % 10) * 10 ^ ds.length := by
        rw [Nat.div_add_mod n 10]
      rw [e]
      ring

theorem repr_isDecimal (n : Nat) : isDecimal (Nat.repr n) = true := by
  simp only [isDecimal, Nat.repr, List.asString, List.all_eq_true]
  exact toDigitsCore_isDigit _ _ _ (by simp)

theorem repr_decimalValue (n : Nat) : decimalValue (Nat.repr n) = n := by
  simp only [decimalValue, Nat.repr, List.asString, Nat.toDigits]
  rw [toDigitsCore_value _ _ _ (Nat.lt_succ_self n)]
  simp

/-- The string `zeroPad` pads, for a natural number. -/
theorem zeroPad_natCast (spaces n : Nat) :
    zeroPad spaces (n : Int) =
      zeroPadLoop (spaces - (if n = 0 then "" else Nat.repr n).length)
        (if n = 0 then "" else Nat.repr n) := by
  unfold zeroPad
  by_cases h : n = 0
  · subst h; rfl
  · have : ¬ ((n : Int) = 0) := by exact_mod_cast h
    simp only [h, this, if_false]
    rfl

theorem zeroPad_isDecimal (spaces n : Nat) : isDecimal (zeroPad spaces (n : Int)) = true := by
  rw [zeroPad_natCast]
  simp only [isDecimal, zeroPadLoop_data, List.all_append, Bool.and_eq_true, List.all_eq_true]
  constructor
  · intro c hc
    rw [List.eq_of_mem_replicate hc]
    rfl
  · split
    · simp
    · have := repr_isDecimal n
      simpa [isDecimal, List.all_eq_true] using this

theorem zeroPad_decimalValue (spaces n : Nat) : decimalValue (zeroPad spaces (n : Int)) = n := by
  rw [zeroPad_natCast]
  simp only [decimalValue, zeroPadLoop_data, List.foldl_append]
  have hz : ∀ k : Nat, (List.replicate k '0').foldl (fun acc c => 10 * acc + (c.toNat - 48)) 0
      = 0 := by
    intro k
    induction k with
    | zero => rfl
    | succ k ih => rw [List.replicate_succ, List.foldl_cons]; exact ih
  rw [hz]
  split
  · rename_i h; simp [h]
  · exact repr_decimalValue n

theorem zeroPad_length (spaces n : Nat) (hs : 0 < spaces) (h : n < 10 ^ spaces) :
    (zeroPad spaces (n : Int)).length = spaces := by
  rw [zeroPad_natCast, zeroPadLoop_length]
  split
  · simp
  · have := Nat.repr_length n spaces hs h
    omega

/-- C4 fails on the code: the instant 2024-01-02T03:04:05.006Z is encoded as
`2024-01-02T03:04:05.0006000Z`, the count of milliseconds padded to 4 digits and followed
by `000`, a fraction that reads 0.6 ms; the encoding `2024-01-02T03:04:05.0060Z` of the
claim, whose 4 digits after the point are the 6 ms as a fraction of the second, is not
produced. -/
theorem expire_milliseconds_misplaced :
    expire "toString" (.date instant) = .ok (.str "2024-01-02T03:04:05.0006000Z") ∧
      expire "toString" (.date instant) ≠ .ok (.str "2024-01-02T03:04:05.0060Z") := by
  decide

theorem zeroPad_int_length (spaces : Nat) (value : Int) (hs : 0 < spaces) (h0 : 0 ≤ value)
    (h : value < 10 ^ spaces) : (zeroPad spaces value).length = spaces := by
  obtain ⟨n, rfl⟩ := Int.eq_ofNat_of_zero_le h0
  exact zeroPad_length spaces n hs (by exact_mod_cast h)

/-- What `optionTransforms.expire` returns for a date whose UTC year is in 0..9999: a
4-character year, 2-character month (counted from 1), day, hours, minutes and seconds,
and after the point the count of milliseconds padded to 4 digits, followed by `000` and
then `Z`. -/
theorem expire_encoding (value : UTCDate) (hy0 : 0 ≤ value.fullYear)
    (hy1 : value.fullYear ≤ 9999) :
    expire "toString" (.date value) =
        .ok (.str (zeroPad 4 value.fullYear ++ "-" ++ zeroPad 2 ((value.month + 1 : Nat) : Int)
          ++ "-" ++ zeroPad 2 (value.date : Int) ++ "T" ++ zeroPad 2 (value.hours : Int) ++ ":"
          ++ zeroPad 2 (value.minutes : Int) ++ ":" ++ zeroPad 2 (value.seconds : Int) ++ "."
          ++ zeroPad 4 (value.milliseconds : Int) ++ "000Z")) ∧
      (zeroPad 4 value.fullYear).length = 4 ∧
      (zeroPad 2 ((value.month + 1 : Nat) : Int)).length = 2 ∧
      (zeroPad 2 (value.date : Int)).length = 2 ∧
      (zeroPad 2 (value.hours : Int)).length = 2 ∧
      (zeroPad 2 (value.minutes : Int)).length = 2 ∧
      (zeroPad 2 (value.seconds : Int)).length = 2 ∧
      (zeroPad 4 (value.milliseconds : Int)).length = 4 ∧
      isDecimal (zeroPad 4 (value.milliseconds : Int)) = true ∧
      decimalValue (zeroPad 4 (value.milliseconds : Int)) = value.milliseconds := by
  have hm := value.month_lt
  have hd := value.date_le
  have hh := value.hours_lt
  have hmin := value.minutes_lt
  have hsec := value.seconds_lt
  have hms := value.milliseconds_lt
  refine ⟨?_, zeroPad_int_length 4 _ (by decide) hy0 (by norm_num; omega),
    zeroPad_length 2 _ (by decide) (by norm_num; omega),
    zeroPad_length 2 _ (by decide) (by norm_num; omega),
    zeroPad_length 2 _ (by decide) (by norm_num; omega),
    zeroPad_length 2 _ (by decide) (by norm_num; omega),
    zeroPad_length 2 _ (by decide) (by norm_num; omega),
    zeroPad_length 4 _ (by decide) (by norm_num; omega),
    zeroPad_isDecimal 4 _, zeroPad_decimalValue 4 _⟩
  simp only [expire, expireToString]
  simp

/-- The output of the encoder at the instant 2024-01-02T03:04:05.006Z. -/
theorem expire_encoding_instant :
    expire "toString" (.date instant) = .ok (.str "2024-01-02T03:04:05.0006000Z") ∧
      decimalValue (zeroPad 4 (instant.milliseconds : Int)) = 6 :=
  ⟨(expire_encoding instant (by decide) (by decide)).1,
    (expire_encoding instant (by decide) (by decide)).2.2.2.2.2.2.2.2.2⟩

theorem collectSubscriptions_eq (jid : String) (strict : Bool) (l : List Element)
    (acc : List Subscription) :
    collectSubscriptions jid strict l acc =
      acc ++ (l.filter (fun e => !strict || decide (e.getAttribute "jid" = some jid))).map
        subscriptionEntry := by
  induction l generalizing acc with
  | nil => simp [collectSubscriptions]
  | cons e es ih =>
    unfold collectSubscriptions
    by_cases hk : e.getAttribute "jid" = some jid
    · have : (some jid != e.getAttribute "jid") = false := by simp [hk]
      simp only [this, Bool.and_false, Bool.false_eq_true, if_false, ih]
      simp [List.filter_cons, hk, subscriptionEntry]
    · have : (some jid != e.getAttribute "jid") = true := by
        simp only [bne_iff_ne, ne_eq]
        exact fun h => hk h.symm
      cases strict with
      | false =>
        simp only [Bool.false_and, Bool.false_eq_true, if_false, ih]
        simp [List.filter_cons, subscriptionEntry]
      | true =>
        simp only [this, Bool.and_true, if_true, ih]
        simp [List.filter_cons, hk]

/-- Below the redirect limit, a redirect/gone error response whose detail does not yield
both an address and a node makes `subscriptionHandler` return without any effect. -/
theorem subscriptionHandler_unusable_redirect {α : Type} (self : Entity α) (packet : Packet)
    (hr : isRedirect packet = true) (hn : replacementNode self packet = none)
    (node : String) (options callbacks : JSValue) (origNode : String) (redirects : Nat)
    (hd : redirects < 5) :
    subscriptionHandler self (some packet) node options callbacks origNode redirects =
      ⟨[], none⟩ := by
  obtain ⟨ht, hc, hs⟩ := redirectChild_of_isRedirect packet hr
  unfold replacementNode at hn
  simp only [hr, if_true] at hn
  cases hE : errorCondition packet with
  | none => simp [hE] at hs
  | some c =>
    simp only [hE] at hn
    unfold subscriptionHandler
    simp only [ht, if_true, hd, hc, hE]
    split at hn
    · rename_i hu
      simp only [Bool.and_eq_true] at hu
      cases hnode : (self.parse c.textContent).node with
      | none => simp [hnode, truthyStr] at hu
      | some n => simp [hnode] at hn
    · rename_i hu
      simp only [hu]
      rfl

/-- With exactly two arguments of which the first is an object with the built-in
`hasOwnProperty`, without an own `onError` and without an own `onSucess` (the name the
code tests), for instance an object with an own `onSuccess` only, `getSubscriptions` takes the first for the node and the second for
the callback set. -/
theorem getSubscriptions_two_arguments_onSuccess {α : Type} (self : Entity α)
    (own inherited : List (String × Prim)) (b : JSValue)
    (h0 : (JSValue.obj own inherited).shadowedHasOwnProperty = none)
    (h1 : own.lookup "onSucess" = none) (h2 : own.lookup "onError" = none) :
    getSubscriptions self [.obj own inherited, b] =
      doGetSubcriptions self (.obj own inherited) b (.obj own inherited) 0
        (.prim .undefined) := by
  simp [getSubscriptions, JSValue.hasOwnProperty, h0, h1, h2]

/-- C3 fails on the code: for a `gone` error response whose detail names no node,
received below the redirect limit, `subscriptionHandler` calls nothing, `onError`
included, and sends nothing. -/
theorem subscriptionHandler_unusable_redirect_silent :
    subscriptionHandler sampleEntity (some gonePacket) "/n" (.prim .undefined) sampleCallbacks
        "/n" 0 = ⟨[], none⟩ ∧
      isRedirect gonePacket = true ∧ replacementNode sampleEntity gonePacket = none := by
  decide

/-- C5 fails on the code: `getSubscriptions(a, true)` with `a = {onSuccess: f1}` sends a
request whose `node` attribute is `a`, and binds `true` as the callback set and `a` as
the node. -/
theorem getSubscriptions_onSuccess_only :
    getSubscriptions sampleEntity [.obj [("onSuccess", .fn 1)] [], .prim (.bool true)] =
      ⟨[.send ⟨some "pubsub.example.com", "get",
            .subscriptions (some (.obj [("onSuccess", .fn 1)] []))⟩
          (.getSubscriptions (.obj [("onSuccess", .fn 1)] []) (.prim (.bool true))
            (.obj [("onSuccess", .fn 1)] []) 0 (.prim .undefined))], none⟩ := by
  decide

/-- C6 (as stated) fails: a `subscription` entry whose `node` attribute is present and
empty is listed with the node `/`, not with its node attribute. -/
theorem subscriptions_empty_node_counterexample :
    getSubscriptionsHandler sampleEntity (some emptyNodePacket) (.prim .undefined)
        sampleCallbacks (.prim .undefined) 0 (.prim .undefined) =
      ⟨[.call "onSuccess" 1 [.uri sampleEntity.pubSubURI, .uri sampleEntity.pubSubURI,
          .subscriptions [⟨"/", some "a@b", none, none⟩], .packet emptyNodePacket]], none⟩ ∧
      (subscriptionElements "a@b" false emptyNodePacket.node).map claimedSubscription =
        [⟨"", some "a@b", none, none⟩] := by
  decide

/-- C6, amended: on a `result` response, `onSuccess` receives the `subscription` entries
of the response in document order, each as `{node, jid, subscription, subid}` with the
node `/` when the attribute is absent or empty; with a truthy `strictJIDMatch` exactly
the entries whose `jid` equals the connection's JID are listed, otherwise all of them. -/
theorem getSubscriptions_success {α : Type} (self : Entity α) (packet : Packet)
    (node callbacks origNode : JSValue) (redirectCount : Nat) (strict : JSValue)
    (onSuccess : Nat) (ht : packet.type = "result")
    (hs : callbacks.getProp "onSuccess" = .ok (.fn onSuccess)) :
    ∃ requestedURI finalURI : URI,
      getSubscriptionsHandler self (some packet) node callbacks origNode redirectCount strict =
        ⟨[.call "onSuccess" onSuccess [.uri requestedURI, .uri finalURI,
          .subscriptions ((subscriptionElements self.jid strict.truthy packet.node).map
            subscriptionEntry), .packet packet]], none⟩ := by
  have hcb := orEmpty_of_getProp_fn _ _ _ hs
  refine ⟨if (if origNode.truthy then origNode else node).truthy then
      self.pubSubURI.extend (";node=" ++ (if origNode.truthy then origNode else node).toStr)
    else self.pubSubURI,
    if node.truthy then self.pubSubURI.extend (";node=" ++ node.toStr) else self.pubSubURI, ?_⟩
  unfold getSubscriptionsHandler
  simp only [hcb, hs]
  cases hE : callbacks.getProp "onError" with
  | error f =>
    cases callbacks with
    | prim p => cases p <;> simp [JSValue.getProp] at hs
    | obj own inherited =>
      simp only [JSValue.getProp] at hE
      split at hE <;> cases hE
  | ok p =>
    have hne : decide ("result" = "error") = false := by decide
    simp only [ht, hne, Bool.false_and, Bool.false_eq_true, if_false,
      decide_True, Bool.true_and, Prim.truthy, if_true, callIfPresent_fn _ _ _ _ hs,
      collectSubscriptions_eq, List.nil_append, subscriptionElements, Outcome.emit]

/-- The instance of C6 (amended) with the entries `a@b/res1` and `a@b`, a strict match
and the local JID `a@b`: only the `a@b` entry is listed. -/
theorem getSubscriptions_success_witness :
    ∃ requestedURI finalURI : URI,
      getSubscriptionsHandler sampleEntity (some subscriptionsPacket) (.prim .undefined)
          sampleCallbacks (.prim .undefined) 0 (.prim (.bool true)) =
        ⟨[.call "onSuccess" 1 [.uri requestedURI, .uri finalURI,
          .subscriptions [⟨"n2", some "a@b", some "pending", none⟩],
          .packet subscriptionsPacket]], none⟩ :=
  getSubscriptions_success sampleEntity subscriptionsPacket (.prim .undefined) sampleCallbacks
    (.prim .undefined) 0 (.prim (.bool true)) 1 (by decide) (by decide)

theorem convertChildren_eq {α : Type} (self : Entity α) (document container : Element)
    (hdoc : document.firstChild ≠ none) :
    ∀ (children : List Node) (rc : List (Item α)),
      (∀ c ∈ children, c.tagName = some "item" → c.firstChildIsElement = true) →
      convertChildren self document (orDefault (container.getAttribute "node") "/") children rc =
        .ok (rc ++ (children.filter (fun c => decide (c.tagName = some "item"))).map
          (listedItem self document container)) := by
  intro children
  induction children with
  | nil => intro rc _; simp [convertChildren]
  | cons c cs ih =>
    intro rc h
    have hcs := ih
    unfold convertChildren
    by_cases ht : c.tagName = some "item"
    · have hfc := h c (List.mem_cons_self _ _) ht
      have hrest : ∀ c2 ∈ cs, c2.tagName = some "item" → c2.firstChildIsElement = true :=
        fun c2 hc2 => h c2 (List.mem_cons_of_mem _ hc2)
      cases c with
      | text d => simp [Node.tagName] at ht
      | element t attrs kids =>
        have huri : itemURI document (attrs.lookup "id")
            (orDefault (container.getAttribute "node") "/") =
            .ok ⟨document.getAttribute "from",
              some (";node=" ++ orDefault (container.getAttribute "node") "/" ++ ";item=" ++
                strOrNull (attrs.lookup "id"))⟩ := by
          unfold itemURI
          cases hf : document.firstChild with
          | none => exact absurd hf hdoc
          | some x => rfl
        have hpt : getPublishTime (.element t attrs kids) =
            .ok (((Node.element t attrs kids).firstChild).bind
              (fun c => c.attribute "publish-time")) := by
          unfold getPublishTime
          cases hk : (Node.element t attrs kids).firstChild with
          | none => rfl
          | some k =>
            cases k with
            | element t2 a2 k2 => rfl
            | text d => simp [Node.firstChildIsElement, hk] at hfc
        simp only [ht, if_true, hpt, Node.getAttribute, huri]
        rw [ih _ hrest]
        simp [List.filter_cons, ht, listedItem, Node.attribute]
    · simp only [ht, if_false]
      rw [ih rc (fun c2 hc2 => h c2 (List.mem_cons_of_mem _ hc2))]
      simp [List.filter_cons, ht]

theorem convertContainers_eq {α : Type} (self : Entity α) (document : Element)
    (hdoc : document.firstChild ≠ none) :
    ∀ (containers : List Element) (rc : List (Item α)),
      (containers.all (fun container => (itemEntries container).all Node.firstChildIsElement))
        = true →
      convertContainers self document containers rc =
        .ok (rc ++ containers.flatMap
          (fun container => (itemEntries container).map (listedItem self document container)))
    := by
  intro containers
  induction containers with
  | nil => intro rc _; simp [convertContainers]
  | cons k ks ih =>
    intro rc h
    simp only [List.all_cons, Bool.and_eq_true] at h
    unfold convertContainers
    rw [convertChildren_eq self document k hdoc k.childNodes rc]
    · simp only []
      rw [ih _ h.2]
      simp [itemEntries]
    · intro c hc ht
      have := h.1
      simp only [itemEntries, List.all_eq_true, List.mem_filter, decide_eq_true_eq] at this
      exact this c ⟨hc, ht⟩

/-- C7 (as stated) fails: on a document with one item entry whose first child is
character data, `convertItems` throws instead of returning the item. -/
theorem items_text_child_counterexample :
    convertItems sampleEntity textItemDocument = .error .typeError ∧
      (textItemDocument.getElementsByTagName "items").map itemEntries =
        [[.element "item" [("id", "1")] [.text "hello"]]] := by
  decide

/-- C7, amended: on a document each of whose item entries has an element as its first
child, or no child, `convertItems` returns exactly one item per direct child tagged
`item` of every `items` element below the root, containers in document order and entries
in order within each; the item's URI is the `from` address with the query
`;node=N;item=id`, `N` the `node` attribute of the entry's container (`/` when absent or
empty) and `id` the entry's `id` attribute. -/
theorem convertItems_eq {α : Type} (self : Entity α) (document : Element)
    (h : decodable document = true) :
    convertItems self document = .ok (listedItems self document) := by
  unfold convertItems listedItems
  cases hc : document.childNodes with
  | nil =>
    have : document.getElementsByTagName "items" = [] := by
      simp [Element.getElementsByTagName, hc, Node.descendantsOfList]
    simp [this, convertContainers]
  | cons c cs =>
    have hdoc : document.firstChild ≠ none := by simp [Element.firstChild, hc]
    rw [convertContainers_eq self document hdoc _ [] h]
    simp

/-- The instance of C7 (amended) on a document with the entries `1` and `2` under the
node `songs`: two items, with the queries `;node=songs;item=1` and `;node=songs;item=2`,
in that order. -/
theorem convertItems_eq_witness :
    decodable songsDocument = true ∧
      (convertItems sampleEntity songsDocument).map (fun items => items.map (fun i => i.uri)) =
        .ok [⟨some "pubsub.example.com", some ";node=songs;item=1"⟩,
             ⟨some "pubsub.example.com", some ";node=songs;item=2"⟩] :=
  ⟨by decide, by rw [convertItems_eq sampleEntity songsDocument (by decide)]; decide⟩

/-- C8 (as stated) fails: when an `items` element precedes the event envelope, the
retraction of item `7` under node `x` is reported with the node and the first child's
identifier of that other element. -/
theorem retract_after_items_counterexample :
    jidHandler sampleEntity lateRetractPacket =
        ⟨[.call "onRetract" 14 [.uri ⟨some "pubsub.example.com", some ";node=y;item=9"⟩]], none⟩ ∧
      ((lateRetractPacket.node.getElementsByTagName "event").head?).bind Element.firstChild =
        some (.element "items" [("node", "x")] [.element "retract" [("id", "7")] []]) := by
  decide

/-- C8, amended: for a push document whose event envelope's first child is an `items`
element that is the first `items` element of the document and whose first child is a
`retract` element, the router calls `onRetract` exactly once, with the `from` address
and the query `;node=N;item=id` (`N` the `node` attribute of the `items` element, `/` by
default, `id` the `id` attribute of the `retract` element), and calls nothing else,
whatever else is registered. -/
theorem jidHandler_retract {α : Type} (self : Entity α) (packet : Packet) (event : Element)
    (attrs rattrs : List (String × String)) (rkids rest : List Node) (fn : Nat)
    (hevent : (packet.node.getElementsByTagName "event").head? = some event)
    (hfirst : event.firstChild = some (.element "items" attrs (.element "retract" rattrs rkids :: rest)))
    (hitems : (packet.node.getElementsByTagName "items").head? =
      some ⟨"items", attrs, .element "retract" rattrs rkids :: rest⟩)
    (hreg : self.handlers.onRetract = some fn) :
    jidHandler self packet =
      ⟨[.call "onRetract" fn [.uri ⟨packet.node.getAttribute "from",
        some (";node=" ++ orDefault (attrs.lookup "node") "/" ++ ";item=" ++
          strOrNull (rattrs.lookup "id"))⟩]], none⟩ := by
  unfold jidHandler
  simp only [hevent, hfirst]
  have hpt : packetType (some (.element "items" attrs (.element "retract" rattrs rkids :: rest)))
      = .ok (some "retract") := by
    simp [packetType, Node.tagName, Node.firstChild]
  simp only [hpt]
  have hfire : ∀ t : Option String, t = some "retract" →
      fireEvent self t packet = ⟨[.call "onRetract" fn [.uri ⟨packet.node.getAttribute "from",
        some (";node=" ++ orDefault (attrs.lookup "node") "/" ++ ";item=" ++
          strOrNull (rattrs.lookup "id"))⟩]], none⟩ := by
    intro t ht
    subst ht
    unfold fireEvent
    rw [if_neg (by decide), if_neg (by decide), if_neg (by decide), if_neg (by decide),
      if_pos rfl]
    simp only [hreg]
    have : retractURI packet = .ok ⟨packet.node.getAttribute "from",
        some (";node=" ++ orDefault (attrs.lookup "node") "/" ++ ";item=" ++
          strOrNull (rattrs.lookup "id"))⟩ := by
      unfold retractURI
      simp only [hitems]
      rfl
    simp only [this]
    rfl
  exact hfire _ rfl

/-- The instance of C8 (amended) for the node `x` and the item `7`. -/
theorem jidHandler_retract_witness :
    jidHandler sampleEntity retractPacket =
      ⟨[.call "onRetract" 14 [.uri ⟨some "pubsub.example.com", some ";node=x;item=7"⟩]], none⟩ :=
  jidHandler_retract sampleEntity retractPacket
    ⟨"event", [], [.element "items" [("node", "x")] [.element "retract" [("id", "7")] []]]⟩
    [("node", "x")] [("id", "7")] [] [] 14 (by decide) (by decide) (by decide) (by decide)

/-- C9 (as stated) fails: when the event envelope is not the first child of the root,
the URI handed to `onSubscribed` carries the node of another element, not the node
`right` of the subscription element. -/
theorem subscription_late_envelope_counterexample :
    jidHandler sampleEntity lateEventPacket =
        ⟨[.call "onSubscribed" 11 [.uri ⟨some "pubsub.example.com", some ";node=wrong"⟩]], none⟩ ∧
      ((lateEventPacket.node.getElementsByTagName "event").head?).bind Element.firstChild =
        some (.element "subscription" [("node", "right"), ("subscription", "subscribed")] []) := by
  decide

theorem getElementsByTagName_first (document : Element) (name : String)
    (attrs : List (String × String)) (kids rest : List Node)
    (h : document.childNodes = .element name attrs kids :: rest) :
    (document.getElementsByTagName name).head? = some ⟨name, attrs, kids⟩ := by
  simp [Element.getElementsByTagName, h, Node.descendantsOfList, Node.asTagged]

/-- C9, amended: for a push document whose first child is the event envelope, the first
child of the envelope being a `subscription` element with state `none`, `pending` or
`subscribed`, the router calls exactly the handler `onUnsubscribed`, `onPending` or
`onSubscribed` respectively, if registered, exactly once, with the `from` address and
the query `;node=n`, `n` the `node` attribute of that subscription element (`/` when
absent or empty); it calls nothing when the handler is not registered. -/
theorem jidHandler_subscription {α : Type} (self : Entity α) (packet : Packet)
    (eattrs sattrs : List (String × String)) (skids erest rest : List Node)
    (state name : String)
    (hroot : packet.node.childNodes =
      .element "event" eattrs (.element "subscription" sattrs skids :: erest) :: rest)
    (hstate : sattrs.lookup "subscription" = some state)
    (hname : stateHandler state = some name) :
    jidHandler self packet =
      match self.handlers.slot name with
      | some fn => ⟨[.call name fn [.uri ⟨packet.node.getAttribute "from",
          some (";node=" ++ orDefault (sattrs.lookup "node") "/")⟩]], none⟩
      | none => ⟨[], none⟩ := by
  have hevent := getElementsByTagName_first packet.node "event" eattrs _ rest hroot
  have huri : subscriptionURI packet = .ok ⟨packet.node.getAttribute "from",
      some (";node=" ++ orDefault (sattrs.lookup "node") "/")⟩ := by
    simp [subscriptionURI, Element.firstChild, hroot, Node.firstChild, getAttributeOf,
      Node.getAttribute, URI.fromObject]
  have hpt : packetType (some (.element "subscription" sattrs skids)) = .ok (some state) := by
    simp [packetType, Node.tagName, Node.getAttribute, hstate]
  unfold jidHandler
  simp only [hevent, Element.firstChild, List.head?_cons, hpt]
  unfold stateHandler at hname
  split at hname
  · rename_i h
    cases hname
    subst h
    unfold fireEvent fireSubscription
    rw [if_neg (by decide), if_neg (by decide), if_pos rfl]
    have hslot : self.handlers.slot "onUnsubscribed" = self.handlers.onUnsubscribed := rfl
    rw [hslot]
    simp only [huri]
    cases self.handlers.onUnsubscribed <;> rfl
  split at hname
  · rename_i h
    cases hname
    subst h
    unfold fireEvent fireSubscription
    rw [if_neg (by decide), if_pos rfl]
    have hslot : self.handlers.slot "onPending" = self.handlers.onPending := rfl
    rw [hslot]
    simp only [huri]
    cases self.handlers.onPending <;> rfl
  split at hname
  · rename_i h
    cases hname
    subst h
    unfold fireEvent fireSubscription
    rw [if_pos rfl]
    have hslot : self.handlers.slot "onSubscribed" = self.handlers.onSubscribed := rfl
    rw [hslot]
    simp only [huri]
    cases self.handlers.onSubscribed <;> rfl
  · cases hname

/-- The instance of C9 (amended) for a `pending` notification on the node `n`. -/
theorem jidHandler_subscription_witness :
    jidHandler sampleEntity pendingPacket =
      ⟨[.call "onPending" 10 [.uri ⟨some "pubsub.example.com", some ";node=n"⟩]], none⟩ :=
  jidHandler_subscription sampleEntity pendingPacket [] [("node", "n"), ("subscription", "pending")]
    [] [] [] "pending" "onPending" (by decide) (by decide) (by decide)

/-- C10: for a push document whose event envelope's first child is an `items` element
whose first child is not a `retract` element, the router calls the registered `onPublish`
exactly once per item `convertItems` returns for that document, in the same order, and
calls nothing else; when `convertItems` throws, so does the router, without any call. -/
theorem jidHandler_publish {α : Type} (self : Entity α) (packet : Packet) (event : Element)
    (attrs : List (String × String)) (first : Node) (rest : List Node) (fn : Nat)
    (hevent : (packet.node.getElementsByTagName "event").head? = some event)
    (hfirst : event.firstChild = some (.element "items" attrs (first :: rest)))
    (hnot : first.tagName ≠ some "retract")
    (hreg : self.handlers.onPublish = some fn) :
    jidHandler self packet =
      match convertItems self packet.node with
      | .ok items => ⟨items.map (fun i => .call "onPublish" fn [.item i]), none⟩
      | .error f => ⟨[], some f⟩ := by
  have hpt : packetType (some (.element "items" attrs (first :: rest))) = .ok (some "publish") := by
    unfold packetType
    simp only [Node.firstChild, List.head?_cons]
    rw [if_neg (by simp [Node.tagName]), if_pos (by simp [Node.tagName]), if_neg hnot]
  unfold jidHandler
  simp only [hevent, hfirst, hpt]
  unfold fireEvent
  rw [if_neg (by decide), if_neg (by decide), if_neg (by decide), if_pos rfl]
  simp only [hreg]
  cases convertItems self packet.node <;> rfl

/-- The instance of C10 on a document publishing two items. -/
theorem jidHandler_publish_witness :
    (jidHandler sampleEntity publishPacket).effects =
      [.call "onPublish" 13 [.item ⟨"a", none,
          ⟨some "pubsub.example.com", some ";node=songs;item=1"⟩⟩],
       .call "onPublish" 13 [.item ⟨"b", none,
          ⟨some "pubsub.example.com", some ";node=songs;item=2"⟩⟩]] := by
  rw [jidHandler_publish sampleEntity publishPacket
    ⟨"event", [], [.element "items" [("node", "songs")]
      [.element "item" [("id", "1")] [.element "song" [] [.text "a"]],
       .element "item" [("id", "2")] [.element "song" [] [.text "b"]]]]⟩
    [("node", "songs")] (.element "item" [("id", "1")] [.element "song" [] [.text "a"]])
    [.element "item" [("id", "2")] [.element "song" [] [.text "b"]]] 13
    (by decide) (by decide) (by decide) (by decide)]
  decide

/-- C11: completed with an absent response document, each of the five response handlers
returns at once: it calls neither `onSuccess` nor `onError`, calls no event handler and
sends no request, whatever its context; so an exchange whose request gets no response
document has no effect. -/
theorem absent_response_silent {α : Type} (self : Entity α) :
    (∀ (node : String) (options callbacks : JSValue) (origNode : String) (redirects : Nat),
        subscriptionHandler self none node options callbacks origNode redirects = ⟨[], none⟩) ∧
      (∀ (node : String) (callbacks : JSValue),
        unsubscriptionHandler self none node callbacks = ⟨[], none⟩) ∧
      (∀ callbacks : JSValue, getItemsHandler self none callbacks = ⟨[], none⟩) ∧
      (∀ (node callbacks origNode : JSValue) (redirectCount : Nat) (strict : JSValue),
        getSubscriptionsHandler self none node callbacks origNode redirectCount strict =
          ⟨[], none⟩) ∧
      (∀ callbacks : JSValue, (configureNodeHandler none callbacks : Outcome α) = ⟨[], none⟩) ∧
      (∀ context : Context, deliver self none context = ⟨[], none⟩) ∧
      (∀ (context : Context) (later : List (Option Packet)),
        converse self (none :: later) context = []) := by
  have hd : ∀ context : Context, deliver self none context = ⟨[], none⟩ := by
    intro context
    cases context <;> rfl
  refine ⟨fun _ _ _ _ _ => rfl, fun _ _ => rfl, fun _ => rfl, fun _ _ _ _ _ => rfl,
    fun _ => rfl, hd, ?_⟩
  intro context later
  rw [converse_cons, hd]
  rfl

theorem fireSubscription_call {α : Type} (slot : Option Nat) (event : String) (packet : Packet)
    (name : String) (fn : Nat) (args : List (Arg α))
    (h : Effect.call name fn args ∈ (fireSubscription slot event packet : Outcome α).effects) :
    name = event ∧ slot = some fn := by
  unfold fireSubscription at h
  cases slot with
  | none => simp [Outcome.done] at h
  | some k =>
    cases hu : subscriptionURI packet with
    | error f => simp [hu, Outcome.throw] at h
    | ok uri =>
      simp only [hu, Outcome.emit, List.mem_singleton, Effect.call.injEq] at h
      obtain ⟨rfl, rfl, _⟩ := h
      exact ⟨rfl, rfl⟩

theorem fireEvent_call_slot {α : Type} (self : Entity α) (type : Option String)
    (packet : Packet) (name : String) (fn : Nat) (args : List (Arg α))
    (h : Effect.call name fn args ∈ (fireEvent self type packet).effects) :
    self.handlers.slot name = some fn := by
  unfold fireEvent at h
  split at h
  · obtain ⟨rfl, hs⟩ := fireSubscription_call _ _ _ _ _ _ h
    exact hs
  split at h
  · obtain ⟨rfl, hs⟩ := fireSubscription_call _ _ _ _ _ _ h
    exact hs
  split at h
  · obtain ⟨rfl, hs⟩ := fireSubscription_call _ _ _ _ _ _ h
    exact hs
  split at h
  · cases hs : self.handlers.onPublish with
    | none => simp [hs, Outcome.done] at h
    | some k =>
      cases hc : convertItems self packet.node with
      | error f => simp [hs, hc, Outcome.throw] at h
      | ok items =>
        simp only [hs, hc, Outcome.emit, List.mem_map, Effect.call.injEq] at h
        obtain ⟨_, _, rfl, rfl, _⟩ := h
        exact hs
  split at h
  · cases hs : self.handlers.onRetract with
    | none => simp [hs, Outcome.done] at h
    | some k =>
      cases hu : retractURI packet with
      | error f => simp [hs, hu, Outcome.throw] at h
      | ok uri =>
        simp only [hs, hu, Outcome.emit, List.mem_singleton, Effect.call.injEq] at h
        obtain ⟨rfl, rfl, _⟩ := h
        exact hs
  · simp [Outcome.done] at h

theorem slot_registerHandler_ne {α : Type} (self : Entity α) (e : String) (h : Option Nat)
    (other : String) (hne : other ≠ e) :
    (registerHandler self e h).handlers.slot other = self.handlers.slot other := by
  unfold registerHandler
  split
  · rename_i h1; subst h1; simp only [Registry.slot, if_neg hne]
  split
  · rename_i h1; subst h1; simp only [Registry.slot, if_neg hne]
  split
  · rename_i h1; subst h1; simp only [Registry.slot, if_neg hne]
  split
  · rename_i h1; subst h1; simp only [Registry.slot, if_neg hne]
  split
  · rename_i h1; subst h1; simp only [Registry.slot, if_neg hne]
  · rfl

/-- C13: after `registerHandler(e, f)` followed by `registerHandler(e, g)`, for `e` one of
the five event names, the slot `e` holds `g`, the other slots are unchanged, and the
entity is the one `registerHandler(e, g)` alone gives: every call an event makes under
the name `e` is a call of `g`, and every push document is handled as after
`registerHandler(e, g)` alone. -/
theorem registerHandler_twice {α : Type} (self : Entity α) (e : String) (f g : Nat)
    (he : e ∈ eventNames) :
    (registerHandler (registerHandler self e (some f)) e (some g)).handlers.slot e = some g ∧
      (∀ other : String, other ≠ e →
        (registerHandler (registerHandler self e (some f)) e (some g)).handlers.slot other =
          self.handlers.slot other) ∧
      (∀ (type : Option String) (packet : Packet) (name : String) (fn : Nat)
          (args : List (Arg α)),
        Effect.call name fn args ∈
            (fireEvent (registerHandler (registerHandler self e (some f)) e (some g)) type
              packet).effects →
          name = e → fn = g) ∧
      (∀ packet : Packet,
        jidHandler (registerHandler (registerHandler self e (some f)) e (some g)) packet =
          jidHandler (registerHandler self e (some g)) packet) := by
  have hslot : (registerHandler (registerHandler self e (some f)) e (some g)).handlers.slot e
      = some g := by
    simp only [eventNames, List.mem_cons, List.mem_singleton, List.not_mem_nil, or_false] at he
    rcases he with rfl | rfl | rfl | rfl | rfl <;> rfl
  have heq : registerHandler (registerHandler self e (some f)) e (some g) =
      registerHandler self e (some g) := by
    simp only [eventNames, List.mem_cons, List.mem_singleton, List.not_mem_nil, or_false] at he
    rcases he with rfl | rfl | rfl | rfl | rfl <;> rfl
  refine ⟨hslot, ?_, ?_, ?_⟩
  · intro other hne
    rw [slot_registerHandler_ne _ _ _ _ hne, slot_registerHandler_ne _ _ _ _ hne]
  · intro type packet name fn args hmem hname
    have := fireEvent_call_slot _ _ _ _ _ _ hmem
    rw [hname, hslot] at this
    exact (Option.some.inj this).symm
  · intro packet
    rw [heq]

/-- The instance of C13 for `onPublish`, on a document publishing two items. -/
theorem registerHandler_twice_witness :
    (registerHandler (registerHandler sampleEntity "onPublish" (some 7)) "onPublish"
        (some 8)).handlers.slot "onPublish" = some 8 ∧
      (calls (jidHandler (registerHandler (registerHandler sampleEntity "onPublish" (some 7))
        "onPublish" (some 8)) publishPacket).effects).map (fun c => (c.1, c.2.1)) =
        [("onPublish", 8), ("onPublish", 8)] :=
  ⟨(registerHandler_twice sampleEntity "onPublish" 7 8 (by decide)).1, by decide⟩

/-- C14: `getSubscriptions(c)` with a single argument sends the same request and binds
the same context (no node, the callbacks `c`, no original node, redirect count 0, no
strict flag) as `getSubscriptions(undefined, c, undefined)`; the two calls being the
same run, every exchange that follows is the same. -/
theorem getSubscriptions_single_argument {α : Type} (self : Entity α) (c : JSValue) :
    getSubscriptions self [c] =
        getSubscriptions self [.prim .undefined, c, .prim .undefined] ∧
      getSubscriptions self [c] =
        ⟨[.send ⟨self.pubSubURI.path, "get", .subscriptions none⟩
          (.getSubscriptions (.prim .undefined) c (.prim .undefined) 0 (.prim .undefined))],
          none⟩ ∧
      ∀ responses : List (Option Packet),
        exchange self (getSubscriptions self [c]) responses =
          exchange self (getSubscriptions self [.prim .undefined, c, .prim .undefined])
            responses := by
  have h : getSubscriptions self [c] =
      getSubscriptions self [.prim .undefined, c, .prim .undefined] := rfl
  exact ⟨h, rfl, fun _ => by rw [h]⟩

/-- C19: `unregisterHandler(e)` changes nothing: the entity, and so every slot of its
handler table, is what it was, and every event is handled as before the call. -/
theorem unregisterHandler_noop {α : Type} (self : Entity α) (e : String) :
    unregisterHandler self e = self ∧
      (∀ name : String, (unregisterHandler self e).handlers.slot name = self.handlers.slot name) ∧
      (∀ (type : Option String) (packet : Packet),
        fireEvent (unregisterHandler self e) type packet = fireEvent self type packet) ∧
      (∀ packet : Packet, jidHandler (unregisterHandler self e) packet = jidHandler self packet) :=
  ⟨rfl, fun _ => rfl, fun _ _ => rfl, fun _ => rfl⟩

theorem doConfigureNode_sent {α : Type} (self : Entity α) (subscription options callbacks : JSValue)
    (h : (doConfigureNode self subscription options callbacks).fault = none) :
    ∃ request : Request, doConfigureNode self subscription options callbacks =
      ⟨[.send request (.configureNode subscription options.orEmpty callbacks)], none⟩ := by
  unfold doConfigureNode at h ⊢
  cases hf : objectToOptionsForm options.orEmpty with
  | error f => simp [hf, Outcome.throw] at h
  | ok opts =>
    simp only [hf] at h ⊢
    cases hn : subscription.getProp "node" with
    | error f => simp [hn, Outcome.throw] at h
    | ok node =>
      cases hj : subscription.getProp "jid" with
      | error f => simp [hn, hj, Outcome.throw] at h
      | ok jid =>
        cases hi : subscription.getProp "subid" with
        | error f => simp [hn, hj, hi, Outcome.throw] at h
        | ok subid => exact ⟨_, rfl⟩

/-- C16: a `configureNode` call that sends its request, with an `onError` callback, and
whose response is an error response, of whatever condition (redirect and gone
included), calls `onError` exactly once, with that response, calls nothing else
(`onSuccess` in particular) and sends no further request: one request in all. -/
theorem configureNode_error {α : Type} (self : Entity α)
    (subscription options callbacks : JSValue) (packet : Packet)
    (later : List (Option Packet)) (onError : Nat)
    (hsent : (configureNode self subscription options callbacks).fault = none)
    (he : callbacks.getProp "onError" = .ok (.fn onError))
    (ht : packet.type = "error") :
    (sent (exchange self (configureNode self subscription options callbacks)
        (some packet :: later))).length = 1 ∧
      calls (exchange self (configureNode self subscription options callbacks)
        (some packet :: later)) = [("onError", onError, [.packet packet])] := by
  obtain ⟨request, hreq⟩ := doConfigureNode_sent self subscription options callbacks hsent
  have hstep : deliver self (some packet) (.configureNode subscription options.orEmpty callbacks)
      = ⟨[.call "onError" onError [.packet packet]], none⟩ := by
    simp only [deliver, configureNodeHandler, ht, if_true]
    exact callIfPresent_fn _ _ _ _ he
  unfold exchange configureNode
  rw [hreq]
  simp only [pendingContext, converse_cons, hstep]
  exact ⟨rfl, rfl⟩

/-- The instance of C16 on a redirect error response with a usable replacement. -/
theorem configureNode_error_witness :
    (sent (exchange sampleEntity
        (configureNode sampleEntity sampleSubscription (.prim .undefined) sampleCallbacks)
        [some redirectPacket])).length = 1 ∧
      calls (exchange sampleEntity
        (configureNode sampleEntity sampleSubscription (.prim .undefined) sampleCallbacks)
        [some redirectPacket]) = [("onError", 2, [.packet redirectPacket])] :=
  configureNode_error sampleEntity sampleSubscription (.prim .undefined) sampleCallbacks
    redirectPacket [] 2 (by decide) (by decide) (by decide)

/-- C17: an `unsubscribe` call on the node `n` with both callbacks supplied, answered by
a response document, sends exactly one request and makes exactly one call: `onError`
when the response type is `error`, `onSuccess` otherwise, with the service URI extended
by `;node=n` and the response, handed over as its document (`packet.getNode()`). -/
theorem unsubscribe_response {α : Type} (self : Entity α) (node : String) (callbacks : JSValue)
    (packet : Packet) (later : List (Option Packet)) (onSuccess onError : Nat)
    (hs : callbacks.getProp "onSuccess" = .ok (.fn onSuccess))
    (he : callbacks.getProp "onError" = .ok (.fn onError)) :
    sent (exchange self (unsubscribe self node callbacks) (some packet :: later)) =
        [(⟨self.pubSubURI.path, "set", .unsubscribe node self.jid⟩,
          .unsubscribe node callbacks)] ∧
      calls (exchange self (unsubscribe self node callbacks) (some packet :: later)) =
        [if packet.type = "error" then
            ("onError", onError,
              [.uri (self.pubSubURI.extend (";node=" ++ node)), .element packet.node])
          else
            ("onSuccess", onSuccess,
              [.uri (self.pubSubURI.extend (";node=" ++ node)), .element packet.node])] := by
  have hcb := orEmpty_of_getProp_fn _ _ _ hs
  unfold exchange unsubscribe
  simp only [Outcome.emit, pendingContext, converse_cons, deliver, unsubscriptionHandler, hcb]
  by_cases ht : packet.type = "error"
  · simp only [ht, if_true, callIfPresent_fn _ _ _ _ he]
    exact ⟨rfl, rfl⟩
  · simp only [ht, if_false, callIfPresent_fn _ _ _ _ hs]
    exact ⟨rfl, rfl⟩

/-- The instance of C17 on a successful response. -/
theorem unsubscribe_response_witness :
    sent (exchange sampleEntity (unsubscribe sampleEntity "/n" sampleCallbacks)
        [some resultPacket]) =
        [(⟨some "pubsub.example.com", "set", .unsubscribe "/n" "a@b"⟩,
          .unsubscribe "/n" sampleCallbacks)] ∧
      calls (exchange sampleEntity (unsubscribe sampleEntity "/n" sampleCallbacks)
        [some resultPacket]) =
        [("onSuccess", 1,
          [.uri ⟨some "pubsub.example.com", some ";node=/n"⟩, .element resultPacket.node])] :=
  unsubscribe_response sampleEntity "/n" sampleCallbacks resultPacket [] 1 2 (by decide)
    (by decide)

theorem converse_follow {α : Type} (self : Entity α) (options callbacks : JSValue)
    (origNode : String) (opts : Option OptionsForm) (hopts : subscribeOptions options = .ok opts)
    (hcb : callbacks.orEmpty = callbacks) (tail : List (Option Packet)) :
    ∀ (chain : List Packet) (node : String) (d : Nat),
      d + chain.length ≤ 5 → (∀ p ∈ chain, (replacementNode self p).isSome) →
      ∃ sends : List (Effect α),
        converse self (chain.map some ++ tail) (.subscribe node options callbacks origNode d) =
          sends ++ converse self tail
            (.subscribe (redirectedNode self node chain) options callbacks origNode
              (d + chain.length)) ∧
        calls sends = [] ∧
        ∀ rc ∈ sent sends, ∃ (n : String) (i : Nat),
          rc = (⟨self.pubSubURI.path, "set", .subscribe n self.jid opts⟩,
            Context.subscribe n options callbacks origNode i) := by
  intro chain
  induction chain with
  | nil =>
    intro node d _ _
    exact ⟨[], by simp [redirectedNode], rfl, by simp [sent]⟩
  | cons p ps ih =>
    intro node d hd hall
    have hp : (replacementNode self p).isSome := hall p (List.mem_cons_self _ _)
    obtain ⟨n1, hn1⟩ := Option.isSome_iff_exists.mp hp
    have hlen : d + 1 + ps.length ≤ 5 := by simp only [List.length_cons] at hd; omega
    obtain ⟨sends, hconv, hcalls, hsent⟩ :=
      ih n1 (d + 1) hlen (fun q hq => hall q (List.mem_cons_of_mem _ hq))
    refine ⟨Effect.send ⟨self.pubSubURI.path, "set", .subscribe n1 self.jid opts⟩
        (.subscribe n1 options callbacks origNode (d + 1)) :: sends, ?_, ?_, ?_⟩
    · have hstep : deliver self (some p) (.subscribe node options callbacks origNode d) =
          .emit [.send ⟨self.pubSubURI.path, "set", .subscribe n1 self.jid opts⟩
            (.subscribe n1 options callbacks origNode (d + 1))] := by
        simp only [deliver]
        rw [subscriptionHandler_redirect self p n1 hn1 _ _ _ _ _ (by omega), hcb]
        exact doSubscribe_ok _ _ _ _ _ _ _ hopts
      have hlen2 : d + 1 + ps.length = d + (p :: ps).length := by
        simp only [List.length_cons]; omega
      have hnode : redirectedNode self node (p :: ps) = redirectedNode self n1 ps := by
        simp [redirectedNode, hn1]
      rw [List.map_cons, List.cons_append, converse_cons, hstep]
      simp only [Outcome.emit, pendingContext]
      rw [hconv, hlen2, hnode]
      rfl
    · simp [calls, hcalls]
    · intro rc hrc
      simp only [sent, List.mem_cons] at hrc
      rcases hrc with rfl | hrc
      · exact ⟨n1, d + 1, rfl⟩
      · exact hsent rc hrc

theorem subscriptionHandler_terminal_calls {α : Type} (self : Entity α) (packet : Packet)
    (h : isRedirect packet = false) (node : String) (options callbacks : JSValue)
    (origNode : String) (redirects : Nat) (onSuccess onError : Nat)
    (hs : callbacks.orEmpty.getProp "onSuccess" = .ok (.fn onSuccess))
    (he : callbacks.orEmpty.getProp "onError" = .ok (.fn onError)) :
    sent (subscriptionHandler self (some packet) node options callbacks origNode redirects).effects
        = [] ∧
      callbackCalls
        (subscriptionHandler self (some packet) node options callbacks origNode
          redirects).effects =
        [(if packet.type = "error" then "onError" else "onSuccess",
          if packet.type = "error" then onError else onSuccess,
          [.uri (self.pubSubURI.extend (";node=" ++ (if origNode = "" then node else origNode))),
           .uri (self.pubSubURI.extend (";node=" ++ node)), .packet packet])] := by
  unfold subscriptionHandler
  by_cases ht : packet.type = "error"
  · have hrc := redirectChild_of_not_isRedirect packet ht h
    simp only [ht, if_true, hrc, ite_self, callIfPresent_fn _ _ _ _ he]
    simp [Outcome.emit, sent, callbackCalls, calls]
  · simp only [ht, if_false, callIfPresent_fn _ _ _ _ hs]
    simp only [Outcome.andThen, Outcome.emit, sent_append, callbackCalls_append,
      (subscriptionEvent_quiet self packet).1, (subscriptionEvent_quiet self packet).2]
    simp [sent, callbackCalls, calls]

/-- C12 (as stated) fails: a `subscribe` call on the empty node, redirected to `/moved`
and then answered successfully, hands `onSuccess` a requested URI that names `/moved`,
the redirected node, and not the node of the call. -/
theorem subscribe_empty_node_counterexample :
    callbackCalls (subscribeTrace sampleEntity "" [sampleCallbacks]
        [some redirectPacket, some resultPacket]) =
      [("onSuccess", 1,
        [.uri ⟨some "pubsub.example.com", some ";node=/moved"⟩,
         .uri ⟨some "pubsub.example.com", some ";node=/moved"⟩, .packet resultPacket])] := by
  decide

/-- C12, amended: for a `subscribe` call on a non-empty node `n0`, with both callbacks
supplied, that follows a chain of redirects (at most 5) to the node `nk` and then gets its
terminal response, the terminal callback (`onError` for an error response, `onSuccess`
otherwise) receives the service URI extended by `;node=n0`, the service URI extended by
`;node=nk`, and the response; and every request sent, the reissued ones included,
carries the options form, the options and the callbacks object of the call, and `n0` as
the original node. -/
theorem subscribe_chain_uris {α : Type} (self : Entity α) (node : String)
    (rest : List JSValue) (chain : List Packet) (terminal : Packet) (onSuccess onError : Nat)
    (hnode : node ≠ "")
    (hk : chain.length ≤ 5)
    (hchain : ∀ p ∈ chain, (replacementNode self p).isSome)
    (hterm : isRedirect terminal = false ∨ chain.length = 5)
    (hsent : (subscribe self node rest).fault = none)
    (hs : (subscribeArguments rest).2.getProp "onSuccess" = .ok (.fn onSuccess))
    (he : (subscribeArguments rest).2.getProp "onError" = .ok (.fn onError)) :
    callbackCalls (subscribeTrace self node rest (chain.map some ++ [some terminal])) =
        [(if terminal.type = "error" then "onError" else "onSuccess",
          if terminal.type = "error" then onError else onSuccess,
          [.uri (self.pubSubURI.extend (";node=" ++ node)),
           .uri (self.pubSubURI.extend (";node=" ++ redirectedNode self node chain)),
           .packet terminal])] ∧
      ∃ opts : Option OptionsForm, ∀ rc ∈ sent (subscribeTrace self node rest
          (chain.map some ++ [some terminal])), ∃ (n : String) (i : Nat),
        rc = (⟨self.pubSubURI.path, "set", .subscribe n self.jid opts⟩,
          Context.subscribe n (subscribeArguments rest).1 (subscribeArguments rest).2 node i) := by
  obtain ⟨opts, hopts⟩ := subscribeOptions_of_no_fault _ _ _ _ _ _ hsent
  have hcb := orEmpty_of_getProp_fn _ _ _ hs
  obtain ⟨sends, hconv, hcalls, hsends⟩ :=
    converse_follow self (subscribeArguments rest).1 (subscribeArguments rest).2 node opts hopts
      hcb [some terminal] chain node 0 (by omega) hchain
  have hterminal : sent (subscriptionHandler self (some terminal) (redirectedNode self node chain)
        (subscribeArguments rest).1 (subscribeArguments rest).2 node
        (0 + chain.length)).effects = [] ∧
      callbackCalls (subscriptionHandler self (some terminal) (redirectedNode self node chain)
        (subscribeArguments rest).1 (subscribeArguments rest).2 node
        (0 + chain.length)).effects =
        [(if terminal.type = "error" then "onError" else "onSuccess",
          if terminal.type = "error" then onError else onSuccess,
          [.uri (self.pubSubURI.extend (";node=" ++ node)),
           .uri (self.pubSubURI.extend (";node=" ++ redirectedNode self node chain)),
           .packet terminal])] := by
    cases hR : isRedirect terminal with
    | false =>
      have := subscriptionHandler_terminal_calls self terminal hR (redirectedNode self node chain)
        (subscribeArguments rest).1 (subscribeArguments rest).2 node (0 + chain.length)
        onSuccess onError (by rw [hcb]; exact hs) (by rw [hcb]; exact he)
      simpa only [hnode, if_false] using this
    | true =>
      have hlen : chain.length = 5 := by
        rcases hterm with h | h
        · rw [hR] at h; cases h
        · exact h
      have ht := (redirectChild_of_isRedirect terminal hR).1
      rw [subscriptionHandler_at_limit self terminal ht _ _ _ _ _ (by omega), hcb,
        callIfPresent_fn _ _ _ _ he]
      simp [Outcome.emit, sent, callbackCalls, calls, ht, hnode]
  have htrace : subscribeTrace self node rest (chain.map some ++ [some terminal]) =
      Effect.send ⟨self.pubSubURI.path, "set", .subscribe node self.jid opts⟩
          (.subscribe node (subscribeArguments rest).1 (subscribeArguments rest).2 node 0) ::
        (sends ++ (subscriptionHandler self (some terminal) (redirectedNode self node chain)
          (subscribeArguments rest).1 (subscribeArguments rest).2 node
          (0 + chain.length)).effects) := by
    unfold subscribeTrace subscribe
    rw [doSubscribe_ok _ _ _ _ _ _ _ hopts]
    simp only [Outcome.emit, pendingContext]
    rw [hconv, converse_single]
    rfl
  constructor
  · rw [htrace]
    have hc : callbackCalls sends = [] := by simp [callbackCalls, hcalls]
    have hcons : ∀ (r : Request) (c : Context) (l : List (Effect α)),
        callbackCalls (Effect.send r c :: l) = callbackCalls l := fun _ _ _ => rfl
    rw [hcons, callbackCalls_append, hc, List.nil_append]
    exact hterminal.2
  · refine ⟨opts, ?_⟩
    intro rc hrc
    rw [htrace] at hrc
    simp only [sent, sent_append, hterminal.1, List.append_nil, List.mem_cons] at hrc
    rcases hrc with rfl | hrc
    · exact ⟨node, 0, rfl⟩
    · exact hsends rc hrc

/-- The instance of C12 (amended) on two redirects followed by a success. -/
theorem subscribe_chain_uris_witness :
    callbackCalls (subscribeTrace sampleEntity "/n" [sampleCallbacks]
        ([redirectPacket, redirectPacket].map some ++ [some resultPacket])) =
      [("onSuccess", 1,
        [.uri ⟨some "pubsub.example.com", some ";node=/n"⟩,
         .uri ⟨some "pubsub.example.com", some ";node=/moved"⟩, .packet resultPacket])] :=
  (subscribe_chain_uris sampleEntity "/n" [sampleCallbacks] [redirectPacket, redirectPacket]
    resultPacket 1 2 (by decide) (by decide) (by decide) (by decide) (by decide) (by decide)
    (by decide)).1

theorem fireEvent_state {α : Type} (self : Entity α) (packet : Packet) (uri : URI)
    (state name : String) (huri : subscriptionURI packet = .ok uri)
    (hname : stateHandler state = some name) :
    fireEvent self (some state) packet =
      match self.handlers.slot name with
      | some fn => ⟨[.call name fn [.uri uri]], none⟩
      | none => ⟨[], none⟩ := by
  unfold stateHandler at hname
  split at hname
  · rename_i h
    cases hname
    subst h
    unfold fireEvent fireSubscription
    rw [if_neg (by decide), if_neg (by decide), if_pos rfl]
    have hslot : self.handlers.slot "onUnsubscribed" = self.handlers.onUnsubscribed := rfl
    rw [hslot]
    simp only [huri]
    cases self.handlers.onUnsubscribed <;> rfl
  split at hname
  · rename_i h
    cases hname
    subst h
    unfold fireEvent fireSubscription
    rw [if_neg (by decide), if_pos rfl]
    have hslot : self.handlers.slot "onPending" = self.handlers.onPending := rfl
    rw [hslot]
    simp only [huri]
    cases self.handlers.onPending <;> rfl
  split at hname
  · rename_i h
    cases hname
    subst h
    unfold fireEvent fireSubscription
    rw [if_pos rfl]
    have hslot : self.handlers.slot "onSubscribed" = self.handlers.onSubscribed := rfl
    rw [hslot]
    simp only [huri]
    cases self.handlers.onSubscribed <;> rfl
  · cases hname

/-- C18 fails on the code: on a successful response to a subscription on `/n` whose
subscription element names the node `/other`, `onSubscribed` receives a URI on `/other`,
and on one whose subscription element names no node it receives a URI on `/`, while the
final URI handed to `onSuccess` is on `/n`: the handler's URI is read from the response,
not taken from the request. -/
theorem subscribe_event_response_node :
    subscriptionHandler sampleEntity (some subscribedOtherPacket) "/n" (.prim .undefined)
        sampleCallbacks "/n" 0 =
      ⟨[.call "onSuccess" 1
          [.uri ⟨some "pubsub.example.com", some ";node=/n"⟩,
           .uri ⟨some "pubsub.example.com", some ";node=/n"⟩, .packet subscribedOtherPacket],
        .call "onSubscribed" 11 [.uri ⟨some "pubsub.example.com", some ";node=/other"⟩]],
        none⟩ ∧
      subscriptionHandler sampleEntity (some subscribedUnnamedPacket) "/n" (.prim .undefined)
        sampleCallbacks "/n" 0 =
      ⟨[.call "onSuccess" 1
          [.uri ⟨some "pubsub.example.com", some ";node=/n"⟩,
           .uri ⟨some "pubsub.example.com", some ";node=/n"⟩, .packet subscribedUnnamedPacket],
        .call "onSubscribed" 11 [.uri ⟨some "pubsub.example.com", some ";node=/"⟩]],
        none⟩ := by
  decide

/-- What the success branch of `subscriptionHandler` does on a response whose first child
is the pubsub body, the first child of the body being a `subscription` element with state
`none`, `pending` or `subscribed`: it calls `onSuccess` and then, exactly once, the
registered handler `onUnsubscribed`, `onPending` or `onSubscribed` respectively, with the
URI built from the response: its `from` address and the query `;node=n`, `n` the `node`
attribute of that subscription element (`/` when absent or empty). -/
theorem subscribe_event {α : Type} (self : Entity α) (packet : Packet) (node : String)
    (options callbacks : JSValue) (origNode : String) (redirects : Nat)
    (pattrs sattrs : List (String × String)) (skids prest rest : List Node)
    (state name : String) (onSuccess : Nat)
    (ht : packet.type ≠ "error")
    (hroot : packet.node.childNodes =
      .element "pubsub" pattrs (.element "subscription" sattrs skids :: prest) :: rest)
    (hstate : sattrs.lookup "subscription" = some state)
    (hname : stateHandler state = some name)
    (hs : callbacks.getProp "onSuccess" = .ok (.fn onSuccess)) :
    subscriptionHandler self (some packet) node options callbacks origNode redirects =
      ⟨.call "onSuccess" onSuccess
          [.uri (self.pubSubURI.extend (";node=" ++ (if origNode = "" then node else origNode))),
           .uri (self.pubSubURI.extend (";node=" ++ node)), .packet packet] ::
        (match self.handlers.slot name with
         | some fn => [.call name fn [.uri ⟨packet.node.getAttribute "from",
             some (";node=" ++ orDefault (sattrs.lookup "node") "/")⟩]]
         | none => []), none⟩ := by
  have hcb := orEmpty_of_getProp_fn _ _ _ hs
  have hpubsub := getElementsByTagName_first packet.node "pubsub" pattrs _ rest hroot
  have huri : subscriptionURI packet = .ok ⟨packet.node.getAttribute "from",
      some (";node=" ++ orDefault (sattrs.lookup "node") "/")⟩ := by
    simp [subscriptionURI, Element.firstChild, hroot, Node.firstChild, getAttributeOf,
      Node.getAttribute, URI.fromObject]
  have hpt : packetType (some (.element "subscription" sattrs skids)) = .ok (some state) := by
    simp [packetType, Node.tagName, Node.getAttribute, hstate]
  have hevent : subscriptionEvent self packet =
      match self.handlers.slot name with
      | some fn => ⟨[.call name fn [.uri ⟨packet.node.getAttribute "from",
          some (";node=" ++ orDefault (sattrs.lookup "node") "/")⟩]], none⟩
      | none => ⟨[], none⟩ := by
    unfold subscriptionEvent
    simp only [hpubsub, Option.some_bind, Element.firstChild, List.head?_cons, Node.tagName,
      if_true, hpt]
    exact fireEvent_state self packet _ state name huri hname
  unfold subscriptionHandler
  simp only [hcb, ht, if_false, callIfPresent_fn _ _ _ _ hs, hevent, Outcome.andThen,
    Outcome.emit]
  cases self.handlers.slot name <;> rfl

/-- The success branch on a `pending` response naming the node `/n`. -/
theorem subscribe_event_pending :
    subscriptionHandler sampleEntity (some pendingResponsePacket) "/n" (.prim .undefined)
        sampleCallbacks "/n" 0 =
      ⟨[.call "onSuccess" 1
          [.uri ⟨some "pubsub.example.com", some ";node=/n"⟩,
           .uri ⟨some "pubsub.example.com", some ";node=/n"⟩, .packet pendingResponsePacket],
        .call "onPending" 10 [.uri ⟨some "pubsub.example.com", some ";node=/n"⟩]],
        none⟩ :=
  subscribe_event sampleEntity pendingResponsePacket "/n" (.prim .undefined) sampleCallbacks "/n"
    0 [] [("node", "/n"), ("subscription", "pending")] [] [] []
    "pending" "onPending" 1 (by decide) (by decide) (by decide) (by decide) (by decide)

/-- A push document without an event envelope is dropped: nothing is called, nothing
thrown. -/
theorem jidHandler_no_envelope {α : Type} (self : Entity α) (packet : Packet)
    (h : (packet.node.getElementsByTagName "event").head? = none) :
    jidHandler self packet = ⟨[], none⟩ := by
  simp [jidHandler, h, Outcome.done]

/-- A push document whose envelope has a first child that is neither an `items` element
nor a `subscription` element is dropped. -/
theorem jidHandler_other_tag {α : Type} (self : Entity α) (packet : Packet) (event : Element)
    (first : Node)
    (hevent : (packet.node.getElementsByTagName "event").head? = some event)
    (hfirst : event.firstChild = some first)
    (h1 : first.tagName ≠ some "subscription") (h2 : first.tagName ≠ some "items") :
    jidHandler self packet = ⟨[], none⟩ := by
  have hpt : packetType (some first) = .ok none := by
    simp [packetType, h1, h2]
  simp only [jidHandler, hevent, hfirst, hpt]
  rfl

/-- A push document whose envelope's first child is a `subscription` element without a
state, or with a state that is none of `none`, `pending`, `subscribed`, `publish` and
`retract`, is dropped. -/
theorem jidHandler_other_state {α : Type} (self : Entity α) (packet : Packet) (event : Element)
    (sattrs : List (String × String)) (skids : List Node)
    (hevent : (packet.node.getElementsByTagName "event").head? = some event)
    (hfirst : event.firstChild = some (.element "subscription" sattrs skids))
    (hstate : ∀ s, sattrs.lookup "subscription" = some s →
      s ∉ ["subscribed", "pending", "none", "publish", "retract"]) :
    jidHandler self packet = ⟨[], none⟩ := by
  have hpt : packetType (some (.element "subscription" sattrs skids)) =
      .ok (sattrs.lookup "subscription") := by
    simp [packetType, Node.tagName, Node.getAttribute]
  simp only [jidHandler, hevent, hfirst, hpt]
  cases hl : sattrs.lookup "subscription" with
  | none => rfl
  | some s =>
    have := hstate s hl
    simp only [List.mem_cons, List.mem_singleton, List.not_mem_nil, or_false, not_or] at this
    obtain ⟨a, b, c, d, e⟩ := this
    unfold fireEvent
    rw [if_neg (by simpa using a), if_neg (by simpa using b), if_neg (by simpa using c),
      if_neg (by simpa using d), if_neg (by simpa using e)]
    rfl

/-- C20 fails on the code: on a push document whose event envelope has no child, the
router throws (`packetType` reads the tag name of `null`); it also throws, with
`onRetract` registered, on a subscription element whose state is `retract`, which it
takes for a retraction. A state such as `unconfigured` is dropped silently. -/
theorem jidHandler_empty_envelope_throws :
    jidHandler sampleEntity emptyEventPacket = ⟨[], some .typeError⟩ ∧
      jidHandler sampleEntity retractStatePacket = ⟨[], some .typeError⟩ ∧
      jidHandler sampleEntity unconfiguredPacket = ⟨[], none⟩ := by
  decide

theorem zeroPad_rendersAs (spaces n : Nat) (hs : 0 < spaces) (h : n < 10 ^ spaces) :
    rendersAs (zeroPad spaces (n : Int)) spaces n :=
  ⟨zeroPad_length spaces n hs h, zeroPad_isDecimal spaces n, zeroPad_decimalValue spaces n⟩

/-- C21: for a date whose UTC year is in 0..9999 the encoded `expire` string is
`y-m-dThh:mm:ss.` followed by the fractional part, where the year `y` is exactly 4
decimal digits and the month, day, hours, minutes and seconds are exactly 2 decimal
digits each, and the number each component spells is the UTC field (the month counted
from 1); a component whose field is 0 is therefore all zeros. -/
theorem expire_components (value : UTCDate) (hy0 : 0 ≤ value.fullYear)
    (hy1 : value.fullYear ≤ 9999) :
    ∃ y m d hh mm ss fraction : String,
      expire "toString" (.date value) =
          .ok (.str (y ++ "-" ++ m ++ "-" ++ d ++ "T" ++ hh ++ ":" ++ mm ++ ":" ++ ss ++ "."
            ++ fraction)) ∧
        rendersAs y 4 value.fullYear.toNat ∧
        rendersAs m 2 (value.month + 1) ∧
        rendersAs d 2 value.date ∧
        rendersAs hh 2 value.hours ∧
        rendersAs mm 2 value.minutes ∧
        rendersAs ss 2 value.seconds ∧
        (value.fullYear = 0 → y = "0000") ∧
        (value.hours = 0 → hh = "00") ∧
        (value.minutes = 0 → mm = "00") ∧
        (value.seconds = 0 → ss = "00") := by
  obtain ⟨n, hn⟩ := Int.eq_ofNat_of_zero_le hy0
  have hn4 : n < 10 ^ 4 := by
    have : (n : Int) ≤ 9999 := by rw [← hn]; exact hy1
    have : n ≤ 9999 := by exact_mod_cast this
    omega
  have hm := value.month_lt
  have hd := value.date_le
  have hh := value.hours_lt
  have hmi := value.minutes_lt
  have hs := value.seconds_lt
  refine ⟨zeroPad 4 value.fullYear, zeroPad 2 ((value.month + 1 : Nat) : Int),
    zeroPad 2 (value.date : Int), zeroPad 2 (value.hours : Int),
    zeroPad 2 (value.minutes : Int), zeroPad 2 (value.seconds : Int),
    zeroPad 4 (value.milliseconds : Int) ++ "000Z", ?_, ?_, ?_, ?_, ?_, ?_, ?_, ?_, ?_, ?_, ?_⟩
  · simp [expire, expireToString, String.append_assoc]
  · rw [hn]
    exact zeroPad_rendersAs 4 n (by decide) hn4
  · exact zeroPad_rendersAs 2 _ (by decide) (by omega)
  · exact zeroPad_rendersAs 2 _ (by decide) (by omega)
  · exact zeroPad_rendersAs 2 _ (by decide) (by omega)
  · exact zeroPad_rendersAs 2 _ (by decide) (by omega)
  · exact zeroPad_rendersAs 2 _ (by decide) (by omega)
  · intro h; rw [h]; rfl
  · intro h; rw [h]; rfl
  · intro h; rw [h]; rfl
  · intro h; rw [h]; rfl

theorem expire_components_witness :
    (0 : Int) ≤ midnight.fullYear ∧ midnight.fullYear ≤ 9999 ∧
      expire "toString" (.date midnight) = .ok (.str "0000-01-01T00:00:00.0000000Z") ∧
      ∃ y m d hh mm ss fraction : String,
        expire "toString" (.date midnight) =
            .ok (.str (y ++ "-" ++ m ++ "-" ++ d ++ "T" ++ hh ++ ":" ++ mm ++ ":" ++ ss ++ "."
              ++ fraction)) ∧
          rendersAs y 4 midnight.fullYear.toNat ∧
          rendersAs m 2 (midnight.month + 1) ∧
          rendersAs d 2 midnight.date ∧
          rendersAs hh 2 midnight.hours ∧
          rendersAs mm 2 midnight.minutes ∧
          rendersAs ss 2 midnight.seconds ∧
          (midnight.fullYear = 0 → y = "0000") ∧
          (midnight.hours = 0 → hh = "00") ∧
          (midnight.minutes = 0 → mm = "00") ∧
          (midnight.seconds = 0 → ss = "00") :=
  ⟨by decide, by decide, by decide, expire_components midnight (by decide) (by decide)⟩

/-- C22: a call `subscribe(node, x)` with exactly two arguments takes `x` as the
callback set and no options, whatever `x` is: it sends one request, the subscribe
element with the given node and the entity's own jid and without an options form, and
binds `x` as the callbacks of its response handler. A call with fewer than three
arguments sends no options form, while a call with node, truthy options and callbacks
sends the form built from the options. -/
theorem subscribe_two_arguments {α : Type} (self : Entity α) (node : String) (x : JSValue) :
    subscribe self node [x] =
        .emit [.send ⟨self.pubSubURI.path, "set", .subscribe node self.jid none⟩
          (.subscribe node (.prim .undefined) x node 0)] ∧
      (∀ rest : List JSValue, rest.length + 1 < 3 →
        ∃ context, subscribe self node rest =
          .emit [.send ⟨self.pubSubURI.path, "set", .subscribe node self.jid none⟩ context]) ∧
      (∀ (options callbacks : JSValue) (form : OptionsForm), options.truthy = true →
        objectToOptionsForm options = .ok form →
        subscribe self node [options, callbacks] =
          .emit [.send ⟨self.pubSubURI.path, "set", .subscribe node self.jid (some form)⟩
            (.subscribe node options callbacks node 0)]) := by
  refine ⟨rfl, ?_, ?_⟩
  · intro rest h
    match rest, h with
    | [], _ => exact ⟨_, rfl⟩
    | [y], _ => exact ⟨_, rfl⟩
    | _ :: _ :: _, h => simp only [List.length_cons] at h; omega
  · intro options callbacks form ht hf
    have : subscribeOptions options = .ok (some form) := by
      simp [subscribeOptions, ht, hf]
    exact doSubscribe_ok self node options callbacks node 0 (some form) this

theorem subscribe_two_arguments_witness :
    subscribe sampleEntity "/n" [sampleCallbacks] =
        .emit [.send ⟨some "pubsub.example.com", "set", .subscribe "/n" "a@b" none⟩
          (.subscribe "/n" (.prim .undefined) sampleCallbacks "/n" 0)] ∧
      subscribe sampleEntity "/n" [digestOptions] =
        .emit [.send ⟨some "pubsub.example.com", "set", .subscribe "/n" "a@b" none⟩
          (.subscribe "/n" (.prim .undefined) digestOptions "/n" 0)] ∧
      subscribe sampleEntity "/n" [digestOptions, sampleCallbacks] =
        .emit [.send ⟨some "pubsub.example.com", "set", .subscribe "/n" "a@b"
            (some ⟨[], [("FORM_TYPE", .str "http://jabber.org/protocol/pubsub#subscribe_options"),
              ("pubsub#digest", .bool true)]⟩)⟩
          (.subscribe "/n" digestOptions sampleCallbacks "/n" 0)] :=
  ⟨(subscribe_two_arguments sampleEntity "/n" sampleCallbacks).1,
    (subscribe_two_arguments sampleEntity "/n" digestOptions).1,
    (subscribe_two_arguments sampleEntity "/n" sampleCallbacks).2.2 _ _ _ (by decide) (by decide)⟩

/-- The four handlers that start with `callbacks = callbacks || {}` tolerate an
omitted callback set: on every present response the handlers of `unsubscribe`,
`getItems` and `getSubscriptions` do nothing at all, and the handler of `subscribe`
calls no callback (it may reissue the request after a redirect and dispatch the event
of a success response). -/
theorem defaulted_callbacks_tolerated {α : Type} (self : Entity α) (packet : Packet) :
    (∀ node, unsubscriptionHandler self (some packet) node (.prim .undefined) = ⟨[], none⟩) ∧
      getItemsHandler self (some packet) (.prim .undefined) = ⟨[], none⟩ ∧
      (∀ node origNode redirectCount strict,
        getSubscriptionsHandler self (some packet) node (.prim .undefined) origNode
          redirectCount strict = ⟨[], none⟩) ∧
      (∀ node options origNode redirects,
        callbackCalls (subscriptionHandler self (some packet) node options (.prim .undefined)
          origNode redirects).effects = []) := by
  refine ⟨?_, ?_, ?_, ?_⟩
  · intro node
    unfold unsubscriptionHandler
    by_cases ht : packet.type = "error" <;> simp [ht] <;> rfl
  · unfold getItemsHandler
    by_cases ht : packet.type = "error" <;> simp [ht] <;> rfl
  · intro node origNode redirectCount strict
    unfold getSubscriptionsHandler
    by_cases ht : packet.type = "error" <;> by_cases hr : packet.type = "result" <;>
      simp [ht, hr, JSValue.orEmpty, JSValue.truthy, Prim.truthy, JSValue.getProp] <;> rfl
  · intro node options origNode redirects
    unfold subscriptionHandler
    by_cases ht : packet.type = "error"
    · simp only [ht, if_true]
      split
      · split
        · unfold doSubscribe
          cases subscribeOptions options with
          | error f => rfl
          | ok opts => rfl
        · rfl
      · rfl
    · simp only [ht, if_false]
      have hq := (subscriptionEvent_quiet self packet).2
      have hc : (callIfPresent (JSValue.prim Prim.undefined).orEmpty "onSuccess"
          [.uri (self.pubSubURI.extend (";node=" ++ (if origNode = "" then node else origNode))),
            .uri (self.pubSubURI.extend (";node=" ++ node)), .packet packet] : Outcome α) =
          ⟨[], none⟩ := rfl
      rw [hc]
      simpa [Outcome.andThen] using hq

/-- C23 fails on the code for `configureNode`: its response handler reads
`callbacks.onError` or `callbacks.onSuccess` without defaulting `callbacks`, so after
`configureNode(subscription)` every error response and every result response makes the
handler throw; the handlers of `unsubscribe`, `getItems`, `getSubscriptions` and
`subscribe` complete silently on the same responses. -/
theorem configureNode_omitted_callbacks_throws :
    pendingContext (configureNode sampleEntity sampleSubscription (.prim .undefined)
        (.prim .undefined)).effects =
        some (.configureNode sampleSubscription (.obj [] []) (.prim .undefined)) ∧
      deliver sampleEntity (some resultPacket)
        (.configureNode sampleSubscription (.obj [] []) (.prim .undefined)) =
        ⟨[], some .typeError⟩ ∧
      deliver sampleEntity (some forbiddenPacket)
        (.configureNode sampleSubscription (.obj [] []) (.prim .undefined)) =
        ⟨[], some .typeError⟩ ∧
      (∀ packet : Packet, packet.type = "error" ∨ packet.type = "result" →
        (configureNodeHandler (some packet) (.prim .undefined) : Outcome String) =
          ⟨[], some .typeError⟩) ∧
      deliver sampleEntity (some resultPacket) (.unsubscribe "/n" (.prim .undefined)) =
        ⟨[], none⟩ ∧
      deliver sampleEntity (some forbiddenPacket) (.getItems (.prim .undefined)) = ⟨[], none⟩ ∧
      deliver sampleEntity (some resultPacket)
        (.subscribe "/n" (.prim .undefined) (.prim .undefined) "/n" 0) = ⟨[], none⟩ := by
  refine ⟨by decide, by decide, by decide, ?_, by decide, by decide, by decide⟩
  intro packet h
  unfold configureNodeHandler
  rcases h with h | h
  · simp only [h, if_true]
    rfl
  · simp only [h, if_true]
    rfl

theorem pendingContext_of_sent_nil {α : Type} (es : List (Effect α)) (h : sent es = []) :
    pendingContext es = none := by
  induction es with
  | nil => rfl
  | cons e es ih =>
    cases e with
    | send request context => simp [sent] at h
    | call name fn args => exact ih h

theorem callIfPresent_sent {α : Type} (callbacks : JSValue) (name : String)
    (args : List (Arg α)) : sent (callIfPresent callbacks name args).effects = [] := by
  unfold callIfPresent
  cases callbacks.getProp name with
  | error f => rfl
  | ok p => cases p <;> simp [Prim.truthy, Outcome.emit, Outcome.throw, Outcome.done, sent] <;>
      split <;> rfl

theorem andThen_sent {α : Type} (a b : Outcome α) (ha : sent a.effects = [])
    (hb : sent b.effects = []) : sent (a.andThen b).effects = [] := by
  unfold Outcome.andThen
  cases a.fault with
  | some f => exact ha
  | none => simp [sent_append, ha, hb]

/-- One response to a `subscribe` request: either the handler sends nothing, or
the depth bound to the request was below 5 and the handler sends exactly one request,
bound to the depth plus one. -/
theorem subscriptionHandler_step {α : Type} (self : Entity α) (packet : Option Packet)
    (node : String) (options callbacks : JSValue) (origNode : String) (redirects : Nat) :
    sent (subscriptionHandler self packet node options callbacks origNode redirects).effects
        = [] ∨
      (redirects < 5 ∧ packet.isSome = true ∧ ∃ request newNode newCallbacks,
        (subscriptionHandler self packet node options callbacks origNode redirects).effects =
          [.send request (.subscribe newNode options newCallbacks origNode (redirects + 1))]) := by
  cases packet with
  | none => exact Or.inl rfl
  | some packet =>
    unfold subscriptionHandler
    by_cases ht : packet.type = "error"
    · simp only [ht, if_true]
      by_cases hd : redirects < 5
      · rw [if_pos hd]
        cases redirectChild (packet.node.getElementsByTagName "error").head? with
        | none => exact Or.inl (callIfPresent_sent _ _ _)
        | some child =>
          simp only
          split
          · unfold doSubscribe
            cases subscribeOptions options with
            | error f => exact Or.inl rfl
            | ok opts => exact Or.inr ⟨hd, rfl, _, _, _, rfl⟩
          · exact Or.inl rfl
      · simp only [hd, if_false]
        exact Or.inl (callIfPresent_sent _ _ _)
    · simp only [ht, if_false]
      exact Or.inl (andThen_sent _ _ (callIfPresent_sent _ _ _) (subscriptionEvent_quiet _ _).1)

/-- The requests of the exchange that follows a `subscribe` request bound to the depth
`redirects`: their depths are `redirects + 1`, `redirects + 2`, ... and stay at most 5,
and there are no more of them than present responses. -/
theorem converse_depths {α : Type} (self : Entity α) (responses : List (Option Packet))
    (node : String) (options callbacks : JSValue) (origNode : String) (redirects : Nat)
    (h : redirects ≤ 5) :
    ∃ count,
      (sent (converse self responses
          (.subscribe node options callbacks origNode redirects))).map
            (fun s => s.2.redirectCount?) = (List.range' (redirects + 1) count).map some ∧
        redirects + count ≤ 5 ∧ count ≤ (responses.filter Option.isSome).length := by
  induction responses generalizing node callbacks redirects with
  | nil => exact ⟨0, rfl, h, Nat.le_refl _⟩
  | cons response rest ih =>
    rw [converse_cons]
    simp only [deliver]
    rcases subscriptionHandler_step self response node options callbacks origNode redirects with
      h0 | ⟨hd, hp, request, newNode, newCallbacks, he⟩
    · rw [pendingContext_of_sent_nil _ h0]
      refine ⟨0, ?_, h, Nat.zero_le _⟩
      simp [sent_append, h0, sent]
    · rw [he]
      obtain ⟨count, hc, hb, hl⟩ := ih newNode newCallbacks (redirects + 1) hd
      refine ⟨count + 1, ?_, by omega, ?_⟩
      · simp only [pendingContext, List.singleton_append, sent, List.map_cons]
        rw [List.range'_succ, List.map_cons, ← hc]
        rfl
      · cases response with
        | none => cases hp
        | some p => simp only [List.filter_cons, Option.isSome_some, if_true, List.length_cons]; omega

/-- The exchange that follows a `subscribe` request bound to the depth `redirects`
reads at most `6 - redirects` responses. -/
theorem converse_take {α : Type} (self : Entity α) (responses : List (Option Packet))
    (node : String) (options callbacks : JSValue) (origNode : String) (redirects : Nat)
    (h : redirects ≤ 5) :
    converse self responses (.subscribe node options callbacks origNode redirects) =
      converse self (responses.take (6 - redirects))
        (.subscribe node options callbacks origNode redirects) := by
  induction responses generalizing node callbacks redirects with
  | nil => simp
  | cons response rest ih =>
    have e : 6 - redirects = (5 - redirects) + 1 := by omega
    rw [e, List.take_succ_cons, converse_cons, converse_cons]
    simp only [deliver]
    rcases subscriptionHandler_step self response node options callbacks origNode redirects with
      h0 | ⟨hd, _, request, newNode, newCallbacks, he⟩
    · rw [pendingContext_of_sent_nil _ h0]
    · rw [he]
      simp only [pendingContext]
      rw [ih newNode newCallbacks (redirects + 1) hd]
      have e2 : 6 - (redirects + 1) = 5 - redirects := by omega
      rw [e2]

/-- C24: whatever the transport delivers (any list of absent, success, redirect or
gone, and other error responses), one `subscribe` call sends at most 6 requests; the
redirect depths bound to them are 0, 1, 2, ... in the order sent, so each reissued
request carries one more than the request it answers and none exceeds 5; and every
request after the first answers a present response, so there are no more requests than
one plus the number of present responses. -/
theorem subscribe_chain_terminates {α : Type} (self : Entity α) (node : String)
    (rest : List JSValue) (responses : List (Option Packet)) :
    ∃ count,
      (sent (subscribeTrace self node rest responses)).length = count ∧
        (sent (subscribeTrace self node rest responses)).map (fun s => s.2.redirectCount?) =
          (List.range count).map some ∧
        count ≤ 6 ∧ count ≤ (responses.filter Option.isSome).length + 1 ∧
        subscribeTrace self node rest responses =
          subscribeTrace self node rest (responses.take 6) := by
  unfold subscribeTrace subscribe doSubscribe
  cases subscribeOptions (subscribeArguments rest).1 with
  | error f => exact ⟨0, rfl, rfl, by decide, Nat.zero_le _, rfl⟩
  | ok opts =>
    simp only [Outcome.emit, pendingContext, List.singleton_append, sent, List.map_cons,
      List.length_cons, List.append_eq, List.nil_append]
    obtain ⟨count, hc, hb, hl⟩ := converse_depths self responses node (subscribeArguments rest).1
      (subscribeArguments rest).2 node 0 (by decide)
    refine ⟨count + 1, ?_, ?_, by omega, by omega, ?_⟩
    · have := congrArg List.length hc
      simp only [List.length_map, List.length_range'] at this
      rw [this]
    · rw [hc, List.range_eq_range', List.range'_succ, List.map_cons]
      rfl
    · rw [converse_take self responses node _ _ node 0 (by decide)]

/-- C25 fails on the code: on a push document whose event envelope starts with an
`items` element without children the router throws, since `packetType` reads
`element.firstChild.tagName` and the first child is `null`; this holds for every such
document and every entity, whatever handlers are registered. -/
theorem jidHandler_empty_items_throws :
    jidHandler sampleEntity emptyItemsPacket = ⟨[], some .typeError⟩ ∧
      ∀ (self : Entity String) (packet : Packet) (event : Element)
        (attributes : List (String × String)),
        (packet.node.getElementsByTagName "event").head? = some event →
        event.firstChild = some (.element "items" attributes []) →
        jidHandler self packet = ⟨[], some .typeError⟩ := by
  refine ⟨by decide, ?_⟩
  intro self packet event attributes he hf
  unfold jidHandler
  rw [he]
  simp only [hf]
  rfl

theorem inheritedTransform_none (o : String) (v : Prim) (h : o ∉ objectPrototypeNames) :
    inheritedTransform o v = none := by
  simp only [objectPrototypeNames, List.mem_cons, List.mem_singleton, List.not_mem_nil, or_false,
    not_or] at h
  obtain ⟨h1, h2, h3, h4, h5, h6, h7, h8, h9, h10, h11, h12⟩ := h
  simp [inheritedTransform, h1, h2, h3, h4, h5, h6, h7, h8, h9, h10, h11, h12]

theorem mem_firstBindings (own : List (String × Prim)) :
    ∀ (seen : List String) (e : String × Prim), e ∈ firstBindings seen own → e ∈ own := by
  induction own with
  | nil => intro seen e h; cases h
  | cons ov rest ih =>
    obtain ⟨o, v⟩ := ov
    intro seen e h
    unfold firstBindings at h
    split at h
    · exact List.mem_cons_of_mem _ (ih _ _ h)
    · rcases List.mem_cons.mp h with h | h
      · rw [h]; exact List.mem_cons_self _ _
      · exact List.mem_cons_of_mem _ (ih _ _ h)

theorem enumerationOrder_perm (own : List (String × Prim)) :
    (enumerationOrder own).Perm (firstBindings [] own) := by
  unfold enumerationOrder
  refine List.Perm.trans (List.Perm.append_right _ (List.perm_insertionSort _ _)) ?_
  have h := List.filter_append_perm (fun e : String × Prim => (arrayIndex? e.1).isSome)
    (firstBindings [] own)
  simpa using h

theorem mem_enumerationOrder (own : List (String × Prim)) (e : String × Prim)
    (h : e ∈ enumerationOrder own) : e ∈ own :=
  mem_firstBindings own [] e ((enumerationOrder_perm own).mem_iff.mp h)

theorem lookup_isSome_of_mem (own : List (String × Prim)) (e : String × Prim) (h : e ∈ own) :
    (own.lookup e.1).isSome = true := by
  induction own with
  | nil => cases h
  | cons ov rest ih =>
    obtain ⟨o, v⟩ := ov
    rw [List.lookup_cons]
    by_cases he : e.1 = o
    · simp [he]
    · have : (e.1 == o) = false := by simpa using he
      rw [this]
      rcases List.mem_cons.mp h with h | h
      · rw [h] at he; exact absurd rfl he
      · exact ih h

/-- The loop of `objectToOptionsForm` on an object with the built-in `hasOwnProperty`:
of the entries visited, those named by an own property give one field each, when each
of them can be encoded. -/
theorem optionFields_eq (own inherited : List (String × Prim))
    (h0 : (JSValue.obj own inherited).shadowedHasOwnProperty = none)
    (l : List (String × Prim))
    (h : ∀ ov ∈ l, (own.lookup ov.1).isSome = true →
      (ov.1 = "expire" → ov.2.isDate = true) ∧
        ov.1 ∉ ["__proto__", "__defineGetter__", "__defineSetter__"]) :
    optionFields (.obj own inherited) l =
      .ok ((l.filter (fun ov => (own.lookup ov.1).isSome)).map
        (fun ov => ("pubsub#" ++ ov.1, fieldValue ov.1 ov.2))) := by
  induction l with
  | nil => rfl
  | cons ov rest ih =>
    obtain ⟨o, v⟩ := ov
    have hrest := ih (fun x hx => h x (List.mem_cons_of_mem _ hx))
    have hhead := h (o, v) (List.mem_cons_self _ _)
    unfold optionFields
    simp only [JSValue.hasOwnProperty, h0]
    cases hl : (own.lookup o).isSome with
    | false => simp [hrest, hl]
    | true =>
      obtain ⟨hd, hn⟩ := hhead hl
      simp only [List.mem_cons, List.mem_singleton, List.not_mem_nil, or_false, not_or] at hn
      obtain ⟨n1, n2, n3⟩ := hn
      simp only at hd
      rw [hrest]
      by_cases ho : o = "expire"
      · have hd2 := hd ho
        subst ho
        cases v <;> simp [Prim.isDate] at hd2
        simp [optionTransforms, expire, fieldValue, hl]
      · cases hi : inheritedTransform o v with
        | none => simp [optionTransforms, ho, hi, fieldValue, hl]
        | some r =>
          cases r with
          | ok p => simp [optionTransforms, ho, hi, fieldValue, hl]
          | error f =>
            exfalso
            unfold inheritedTransform at hi
            simp only [n1, n2, n3, or_self, if_false] at hi
            repeat' split at hi
            all_goals cases hi

theorem fieldValue_plain (o : String) (v : Prim) (ho : o ≠ "expire")
    (hi : o ∉ objectPrototypeNames) : fieldValue o v = v := by
  simp [fieldValue, optionTransforms, ho, inheritedTransform_none o v hi]

theorem fieldValue_expire (d : UTCDate) :
    fieldValue "expire" (.date d) = .str (expireToString d) := by
  simp [fieldValue, optionTransforms, expire]

/-- C15 (as stated) fails: on an `expire` option that is not a date the codec throws and
emits no field, and so it does on an option named `hasOwnProperty`, which replaces the
test of the loop; the option named `toString` is emitted with the value
`[object Object]` and the option named `__lookupGetter__` with the value `undefined`,
not with their own values. -/
theorem optionsForm_counterexample :
    objectToOptionsForm (.obj [("expire", .str "tomorrow")] []) = .error .typeError ∧
      objectToOptionsForm (.obj [("hasOwnProperty", .str "x")] []) = .error .typeError ∧
      objectToOptionsForm (.obj [("toString", .str "x")] []) =
        .ok ⟨[], [("FORM_TYPE", .str "http://jabber.org/protocol/pubsub#subscribe_options"),
          ("pubsub#toString", .str "[object Object]")]⟩ ∧
      objectToOptionsForm (.obj [("__lookupGetter__", .str "x")] []) =
        .ok ⟨[], [("FORM_TYPE", .str "http://jabber.org/protocol/pubsub#subscribe_options"),
          ("pubsub#__lookupGetter__", .undefined)]⟩ := by
  decide

/-- C15, amended: for an option map with the built-in `hasOwnProperty`, whose `expire`
option, if there is one, is a date, and without an option named `__proto__`,
`__defineGetter__` or `__defineSetter__`, the codec emits, after the fixed `FORM_TYPE`
field, exactly one field per own option, in the order the loop visits them (array
indices ascending, then the other names as inserted), the field of the option `o` being
named `pubsub#o`; its value is the option's value unmodified for every `o` other than
`expire` and other than the names inherited from `Object.prototype`, and the encoded
date for `expire`. -/
theorem optionsForm_fields (own inherited : List (String × Prim))
    (hown : own.lookup "hasOwnProperty" = none)
    (hinh : inherited.lookup "hasOwnProperty" = none)
    (hexpire : ∀ ov ∈ own, ov.1 = "expire" → ov.2.isDate = true)
    (hnames : ∀ ov ∈ own, ov.1 ∉ ["__proto__", "__defineGetter__", "__defineSetter__"]) :
    ∃ values : List Prim, values.length = (enumerationOrder own).length ∧
      objectToOptionsForm (.obj own inherited) =
        .ok ⟨[], ("FORM_TYPE", .str "http://jabber.org/protocol/pubsub#subscribe_options") ::
          List.zipWith (fun ov value => ("pubsub#" ++ ov.1, value)) (enumerationOrder own)
            values⟩ ∧
      (enumerationOrder own).Perm (firstBindings [] own) ∧
      (∀ (i : Nat) (o : String) (v : Prim), (enumerationOrder own)[i]? = some (o, v) →
        o ≠ "expire" → o ∉ objectPrototypeNames → values[i]? = some v) ∧
      (∀ (i : Nat) (d : UTCDate), (enumerationOrder own)[i]? = some ("expire", .date d) →
        values[i]? = some (.str (expireToString d))) := by
  have h0 : (JSValue.obj own inherited).shadowedHasOwnProperty = none := by
    simp [JSValue.shadowedHasOwnProperty, hown, hinh]
  have hfilter : (JSValue.obj own inherited).enumerate.filter
      (fun ov => (own.lookup ov.1).isSome) = enumerationOrder own := by
    simp only [JSValue.enumerate, List.filter_append, List.filter_filter]
    have h1 : (enumerationOrder own).filter (fun ov => (own.lookup ov.1).isSome) =
        enumerationOrder own :=
      List.filter_eq_self.mpr (fun e he =>
        lookup_isSome_of_mem own e (mem_enumerationOrder own e he))
    have h2 : (enumerationOrder inherited).filter
        (fun a => (own.lookup a.1).isSome && (own.lookup a.1).isNone) = [] :=
      List.filter_eq_nil_iff.mpr (fun e _ => by cases own.lookup e.1 <;> simp)
    rw [h1, h2, List.append_nil]
  have hfields := optionFields_eq own inherited h0 (JSValue.obj own inherited).enumerate
    (fun ov hov hsome => by
      have hmem : ov ∈ enumerationOrder own := by
        rw [← hfilter]
        exact List.mem_filter.mpr ⟨hov, hsome⟩
      exact ⟨hexpire ov (mem_enumerationOrder own ov hmem),
        hnames ov (mem_enumerationOrder own ov hmem)⟩)
  rw [hfilter] at hfields
  refine ⟨(enumerationOrder own).map (fun ov => fieldValue ov.1 ov.2), by simp, ?_,
    enumerationOrder_perm own, ?_, ?_⟩
  · unfold objectToOptionsForm
    simp only [hfields]
    congr 3
    generalize enumerationOrder own = l
    induction l with
    | nil => rfl
    | cons ov rest ih =>
      simp only [List.map_cons, List.zipWith_cons_cons]
      rw [ih]
  · intro i o v hi ho hinh2
    simp [List.getElem?_map, hi, fieldValue_plain o v ho hinh2]
  · intro i d hi
    simp [List.getElem?_map, hi, fieldValue_expire]

/-- The instance of C15 (amended) on
`{deliver: true, 2: 'b', expire: <the sample instant>, 1: 'a'}`. -/
theorem optionsForm_fields_witness :
    (∃ values : List Prim, values.length = (enumerationOrder indexedOptions).length ∧
      objectToOptionsForm (.obj indexedOptions []) =
        .ok ⟨[], ("FORM_TYPE", .str "http://jabber.org/protocol/pubsub#subscribe_options") ::
          List.zipWith (fun ov value => ("pubsub#" ++ ov.1, value))
            (enumerationOrder indexedOptions) values⟩ ∧
      (enumerationOrder indexedOptions).Perm (firstBindings [] indexedOptions) ∧
      (∀ (i : Nat) (o : String) (v : Prim),
        (enumerationOrder indexedOptions)[i]? = some (o, v) →
        o ≠ "expire" → o ∉ objectPrototypeNames → values[i]? = some v) ∧
      (∀ (i : Nat) (d : UTCDate),
        (enumerationOrder indexedOptions)[i]? = some ("expire", .date d) →
          values[i]? = some (.str (expireToString d)))) ∧
      enumerationOrder indexedOptions =
        [("1", .str "a"), ("2", .str "b"), ("deliver", .bool true), ("expire", .date instant)] ∧
      objectToOptionsForm (.obj indexedOptions []) =
        .ok ⟨[], [("FORM_TYPE", .str "http://jabber.org/protocol/pubsub#subscribe_options"),
          ("pubsub#1", .str "a"), ("pubsub#2", .str "b"), ("pubsub#deliver", .bool true),
          ("pubsub#expire", .str "2024-01-02T03:04:05.0006000Z")]⟩ :=
  ⟨optionsForm_fields indexedOptions [] (by decide) (by decide) (by decide) (by decide),
    by decide, by decide⟩

theorem callIfPresent_callbackCalls {α : Type} (callbacks : JSValue) (name : String)
    (args : List (Arg α)) (hname : name = "onSuccess" ∨ name = "onError") :
    (callbackCalls (callIfPresent callbacks name args).effects).map (fun c => (c.1, c.2.1)) =
      (match callbacks.getProp name with
       | .ok (.fn f) => some f
       | _ => none).toList.map (fun f => (name, f)) := by
  unfold callIfPresent
  cases callbacks.getProp name with
  | error f => rfl
  | ok p =>
    cases p with
    | fn id => rcases hname with h | h <;> subst h <;> rfl
    | undefined => rfl
    | null => rfl
    | bool b => cases b <;> rfl
    | num n => dsimp only; split <;> rfl
    | str s => dsimp only; split <;> rfl
    | date d => rfl
    | object label => rfl

/-- A terminal response (a success, or an error that is not redirect/gone) sends
nothing, and is reported to the callback the set supplies for it, if it supplies one. -/
theorem subscriptionHandler_terminal_any {α : Type} (self : Entity α) (packet : Packet)
    (h : isRedirect packet = false) (node : String) (options callbacks : JSValue)
    (origNode : String) (redirects : Nat) :
    sent (subscriptionHandler self (some packet) node options callbacks origNode redirects).effects
        = [] ∧
      (callbackCalls
        (subscriptionHandler self (some packet) node options callbacks origNode
          redirects).effects).map (fun c => (c.1, c.2.1)) =
        (suppliedCallback callbacks (terminalCallback packet)).toList.map
          (fun f => (terminalCallback packet, f)) := by
  unfold subscriptionHandler suppliedCallback terminalCallback
  by_cases ht : packet.type = "error"
  · have hrc := redirectChild_of_not_isRedirect packet ht h
    simp only [ht, if_true, hrc, ite_self]
    exact ⟨callIfPresent_sent _ _ _, callIfPresent_callbackCalls _ _ _ (Or.inr rfl)⟩
  · simp only [ht, if_false]
    refine ⟨andThen_sent _ _ (callIfPresent_sent _ _ _) (subscriptionEvent_quiet _ _).1, ?_⟩
    have hc := callIfPresent_callbackCalls (α := α) callbacks.orEmpty "onSuccess"
      [.uri (self.pubSubURI.extend (";node=" ++ (if origNode = "" then node else origNode))),
        .uri (self.pubSubURI.extend (";node=" ++ node)), .packet packet] (Or.inl rfl)
    rw [← hc]
    unfold Outcome.andThen
    split
    · rfl
    · simp only [callbackCalls_append, (subscriptionEvent_quiet self packet).2, List.append_nil]

/-- C2 (as stated) fails: `subscribe('/n')`, called without callbacks and answered by a
success, sends its one request and invokes no callback, and so does a call whose callback
set has no `onSuccess`. -/
theorem subscribe_without_callbacks_counterexample :
    subscribeTrace sampleEntity "/n" [] [some resultPacket] =
        [.send ⟨some "pubsub.example.com", "set", .subscribe "/n" "a@b" none⟩
          (.subscribe "/n" (.prim .undefined) (.prim .undefined) "/n" 0)] ∧
      callbackCalls (subscribeTrace sampleEntity "/n" [] [some resultPacket]) = [] ∧
      callbackCalls (subscribeTrace sampleEntity "/n" [.obj [("onError", .fn 2)] []]
        [some resultPacket]) = [] := by
  decide

/-- C2, amended: a `subscribe` call that sends its request, answered by `k < 5`
redirect/gone error responses, each with a usable replacement address and node, and then
by a terminal response (a success, or an error that is not redirect/gone) sends exactly
`k + 1` requests, the request number `i` carrying the redirect count `i` (so the last one
carries `k`); if the callback set supplies, as a function, the callback of the terminal
response (`onError` for an error, `onSuccess` otherwise), that callback is called exactly
once and no other callback is called; if it does not, no callback is called. -/
theorem subscribe_chain_below_limit {α : Type} (self : Entity α) (node : String)
    (rest : List JSValue) (chain : List Packet) (terminal : Packet)
    (hk : chain.length < 5)
    (hchain : ∀ p ∈ chain, (replacementNode self p).isSome)
    (hterm : isRedirect terminal = false)
    (hsent : (subscribe self node rest).fault = none) :
    (sent (subscribeTrace self node rest (chain.map some ++ [some terminal]))).length
        = chain.length + 1 ∧
      (sent (subscribeTrace self node rest (chain.map some ++ [some terminal]))).map
          (fun rc => rc.2.redirectCount?) = (List.range (chain.length + 1)).map some ∧
      ((sent (subscribeTrace self node rest (chain.map some ++ [some terminal]))).getLast?).bind
          (fun rc => rc.2.redirectCount?) = some chain.length ∧
      (callbackCalls (subscribeTrace self node rest (chain.map some ++ [some terminal]))).map
          (fun c => (c.1, c.2.1)) =
        (suppliedCallback (subscribeArguments rest).2 (terminalCallback terminal)).toList.map
          (fun f => (terminalCallback terminal, f)) := by
  obtain ⟨opts, hopts⟩ := subscribeOptions_of_no_fault _ _ _ _ _ _ hsent
  obtain ⟨sends, node2, callbacks2, hconv, hcb2, hcalls, hdepths⟩ :=
    converse_redirects self (subscribeArguments rest).1 node opts hopts [some terminal] chain node
      (subscribeArguments rest).2 0 (by omega) hchain
  have hsupplied : suppliedCallback callbacks2 (terminalCallback terminal) =
      suppliedCallback (subscribeArguments rest).2 (terminalCallback terminal) := by
    unfold suppliedCallback
    rw [hcb2]
  have hterminal := subscriptionHandler_terminal_any self terminal hterm node2
    (subscribeArguments rest).1 callbacks2 node (0 + chain.length)
  rw [hsupplied] at hterminal
  have htrace : subscribeTrace self node rest (chain.map some ++ [some terminal]) =
      Effect.send ⟨self.pubSubURI.path, "set", .subscribe node self.jid opts⟩
          (.subscribe node (subscribeArguments rest).1 (subscribeArguments rest).2 node 0) ::
        (sends ++ (subscriptionHandler self (some terminal) node2 (subscribeArguments rest).1
          callbacks2 node (0 + chain.length)).effects) := by
    unfold subscribeTrace subscribe
    rw [doSubscribe_ok _ _ _ _ _ _ _ hopts]
    simp only [Outcome.emit, pendingContext]
    rw [hconv, converse_single]
    rfl
  have hmap : (sent (subscribeTrace self node rest (chain.map some ++ [some terminal]))).map
      (fun rc => rc.2.redirectCount?) = (List.range (chain.length + 1)).map some := by
    rw [htrace]
    simp only [sent, sent_append, hterminal.1, List.append_nil, List.map_cons, hdepths]
    rw [List.range_eq_range', List.range'_succ]
    rfl
  refine ⟨?_, hmap, ?_, ?_⟩
  · have := congrArg List.length hmap
    simpa using this
  · have h2 : ((sent (subscribeTrace self node rest (chain.map some ++ [some terminal]))).map
        (fun rc => rc.2.redirectCount?)).getLast? = some (some chain.length) := by
      rw [hmap, List.range_succ]
      simp
    rw [List.getLast?_map] at h2
    cases hl : (sent (subscribeTrace self node rest (chain.map some ++ [some terminal]))).getLast?
      with
    | none => simp [hl] at h2
    | some rc => simpa [hl] using h2
  · rw [htrace]
    have hc : callbackCalls sends = [] := by simp [callbackCalls, hcalls]
    have hcons : ∀ (r : Request) (c : Context) (l : List (Effect α)),
        callbackCalls (Effect.send r c :: l) = callbackCalls l := fun _ _ _ => rfl
    rw [hcons, callbackCalls_append, hc, List.nil_append]
    exact hterminal.2

/-- The instances of C2 (amended) on two redirect responses followed by a success: with
both callbacks supplied, and with no callbacks. -/
theorem subscribe_chain_below_limit_witness :
    ((sent (subscribeTrace sampleEntity "/n" [sampleCallbacks]
        ([redirectPacket, redirectPacket].map some ++ [some resultPacket]))).length = 3 ∧
      (sent (subscribeTrace sampleEntity "/n" [sampleCallbacks]
        ([redirectPacket, redirectPacket].map some ++ [some resultPacket]))).map
          (fun rc => rc.2.redirectCount?) = [some 0, some 1, some 2] ∧
      ((sent (subscribeTrace sampleEntity "/n" [sampleCallbacks]
        ([redirectPacket, redirectPacket].map some ++ [some resultPacket]))).getLast?).bind
          (fun rc => rc.2.redirectCount?) = some 2 ∧
      (callbackCalls (subscribeTrace sampleEntity "/n" [sampleCallbacks]
        ([redirectPacket, redirectPacket].map some ++ [some resultPacket]))).map
          (fun c => (c.1, c.2.1)) = [("onSuccess", 1)]) ∧
      ((sent (subscribeTrace sampleEntity "/n" []
        ([redirectPacket, redirectPacket].map some ++ [some resultPacket]))).length = 3 ∧
      (sent (subscribeTrace sampleEntity "/n" []
        ([redirectPacket, redirectPacket].map some ++ [some resultPacket]))).map
          (fun rc => rc.2.redirectCount?) = [some 0, some 1, some 2] ∧
      ((sent (subscribeTrace sampleEntity "/n" []
        ([redirectPacket, redirectPacket].map some ++ [some resultPacket]))).getLast?).bind
          (fun rc => rc.2.redirectCount?) = some 2 ∧
      (callbackCalls (subscribeTrace sampleEntity "/n" []
        ([redirectPacket, redirectPacket].map some ++ [some resultPacket]))).map
          (fun c => (c.1, c.2.1)) = []) :=
  ⟨subscribe_chain_below_limit sampleEntity "/n" [sampleCallbacks]
      [redirectPacket, redirectPacket] resultPacket (by decide) (by decide) (by decide)
      (by decide),
    subscribe_chain_below_limit sampleEntity "/n" [] [redirectPacket, redirectPacket]
      resultPacket (by decide) (by decide) (by decide) (by decide)⟩

/-- With exactly two arguments of which the first has an own `onError`,
`getSubscriptions(a, b)` takes `a` for the callback set and, the parameters being one
with their slots of `arguments`, takes `a` for the strict flag as well, whatever `b`
is: after `getSubscriptions(a, false)` only the entries of the entity's own JID are
listed. -/
theorem getSubscriptions_recognised_strict :
    getSubscriptions sampleEntity [sampleCallbacks, .prim (.bool false)] =
        ⟨[.send ⟨some "pubsub.example.com", "get", .subscriptions none⟩
          (.getSubscriptions (.prim .undefined) sampleCallbacks (.prim .undefined) 0
            sampleCallbacks)], none⟩ ∧
      (calls (exchange sampleEntity
        (getSubscriptions sampleEntity [sampleCallbacks, .prim (.bool false)])
        [some subscriptionsPacket])).map (fun c => (c.1, c.2.1)) = [("onSuccess", 1)] ∧
      calls (exchange sampleEntity
        (getSubscriptions sampleEntity [sampleCallbacks, .prim (.bool false)])
        [some subscriptionsPacket]) =
        calls (getSubscriptionsHandler sampleEntity (some subscriptionsPacket) (.prim .undefined)
          sampleCallbacks (.prim .undefined) 0 (.prim (.bool true))).effects ∧
      calls (getSubscriptionsHandler sampleEntity (some subscriptionsPacket) (.prim .undefined)
          sampleCallbacks (.prim .undefined) 0 (.prim (.bool true))).effects ≠
        calls (getSubscriptionsHandler sampleEntity (some subscriptionsPacket) (.prim .undefined)
          sampleCallbacks (.prim .undefined) 0 (.prim (.bool false))).effects := by
  decide

end Subscribable
